import Mathlib

/-!
Verification development for the digital-twin migration repository.

The Python sources are shallowly embedded as executable Lean definitions:

* `src/migrate_data_to_rag.py` — the migration pipeline (`DigitalTwinMigrator`):
  JSON loading/validation, relational upserts with replace-all semantics,
  content-chunk building, chunk persistence, and vector upserts with retry.
* `src/api_server.py` — the mock confidence scorer `calculate_mock_confidence`.

Modelling conventions:

* Python strings are modelled by `String` / `List Char`; the handful of string
  operations the code uses (`replace` of a single character, `split` on a
  separator, `strip`, `lower`, substring membership `in`) are re-implemented
  over `List Char` with Python semantics (ASCII range; the profile data and
  all constants in the code are ASCII apart from the dash characters, which
  are handled explicitly).
* Python `dict.get(k)` is `Option`; `dict.get(k, d)` is `Option.getD`.
  A JSON object field that is absent is `none`.
* `datetime` values produced by `parse_date` always have day 1 and zero time,
  so they are modelled as a year/month pair (`YMDate`).
* Database tables are lists of row structures; serial primary keys are
  modelled by a counter in the database state.  `created_at`/`updated_at`
  timestamps (real time) are not modelled.
* External effects (file system, the Upstash vector service) enter the model
  as explicit parameters: the loader takes the outcome of `open`+`json.load`,
  and the vector upserter takes an oracle saying which upsert attempts fail.
-/

/-! ## Python string primitives over `List Char` -/

/-- Python `str.isspace` characters (the six ASCII whitespace characters,
matching what `\s` can consume in the `_strptime` regexes for ASCII data). -/
def pyIsSpace (c : Char) : Bool :=
  c == ' ' || c == '\t' || c == '\n' || c == '\r' || c == '\x0b' || c == '\x0c'

/-- Boolean list-prefix test (Python `str.startswith`, and the building block
for substring search). -/
def listPrefixOf : List Char → List Char → Bool
  | [], _ => true
  | _ :: _, [] => false
  | a :: as, b :: bs => a == b && listPrefixOf as bs

/-- Python substring membership `pat in s`. -/
def listInfixOf (pat : List Char) : List Char → Bool
  | [] => listPrefixOf pat []
  | c :: rest => listPrefixOf pat (c :: rest) || listInfixOf pat rest

/-- Python `pat in s` on `String`s. -/
def strContains (s pat : String) : Bool :=
  listInfixOf pat.data s.data

/-- Python `str.lower` (ASCII). -/
def pyLower (l : List Char) : List Char :=
  l.map Char.toLower

/-- Python `str.strip()`: drop leading and trailing whitespace. -/
def pyStrip (l : List Char) : List Char :=
  ((l.dropWhile pyIsSpace).reverse.dropWhile pyIsSpace).reverse

/-- Python `str.split(sep)` for a non-empty separator `s₁ :: sr`:
split on non-overlapping occurrences, left to right.  `acc` holds the
characters of the current field in reverse.  Structural recursion on a fuel
bound (every step consumes at least one input character, so any fuel of at
least the input length gives the untruncated split; the zero-fuel case is
unreachable from `pySplit`). -/
def pySplitCore (s₁ : Char) (sr : List Char) : Nat → List Char → List Char → List (List Char)
  | _, [], acc => [acc.reverse]
  | 0, l, acc => [acc.reverse ++ l]
  | fuel + 1, c :: rest, acc =>
    if listPrefixOf (s₁ :: sr) (c :: rest) then
      acc.reverse :: pySplitCore s₁ sr fuel ((c :: rest).drop (sr.length + 1)) []
    else
      pySplitCore s₁ sr fuel rest (c :: acc)

/-- Python `l.split(s₁ :: sr)` (non-empty separator). -/
def pySplit (s₁ : Char) (sr : List Char) (l : List Char) : List (List Char) :=
  pySplitCore s₁ sr l.length l []

/-! ## `parse_date` (migrate_data_to_rag.py lines 930-945)

`datetime.strptime` is tried on the fixed format list
`['%Y-%m', '%Y/%m', '%m/%Y', '%Y', '%B %Y', '%b %Y']`; the first format that
matches wins, a `ValueError` (regex mismatch, trailing input, or an
out-of-range year in the `datetime` constructor) moves on to the next format,
and `None` is returned when all formats fail.  The CPython `_strptime`
regexes are reproduced: `%Y` is exactly four digits, `%m` is
`1[0-2]|0[1-9]|[1-9]` (alternatives tried in that order), `%B`/`%b` match a
month name case-insensitively, and literal whitespace in a format matches a
non-empty whitespace run. -/

/-- A parsed date: `datetime` with day 1 and zero time. -/
structure YMDate where
  year : Nat
  month : Nat
deriving Repr, DecidableEq

/-- Numeric value of an ASCII digit character. -/
def digitVal (c : Char) : Nat :=
  c.toNat - '0'.toNat

/-- Consume exactly four digits (the `%Y` regex `\d\d\d\d`). -/
def take4Digits : List Char → Option (Nat × List Char)
  | a :: b :: c :: d :: rest =>
    if a.isDigit && b.isDigit && c.isDigit && d.isDigit then
      some (digitVal a * 1000 + digitVal b * 100 + digitVal c * 10 + digitVal d, rest)
    else none
  | _ => none

/-- Consume a month number (the `%m` regex `1[0-2]|0[1-9]|[1-9]`, alternatives
in that order). -/
def takeMonthNum : List Char → Option (Nat × List Char)
  | [] => none
  | c :: rest =>
    if c = '1' then
      match rest with
      | d :: rest2 =>
        if d = '0' || d = '1' || d = '2' then some (10 + digitVal d, rest2)
        else some (1, d :: rest2)
      | [] => some (1, [])
    else if c = '0' then
      match rest with
      | d :: rest2 => if '1' ≤ d && d ≤ '9' then some (digitVal d, rest2) else none
      | [] => none
    else if '2' ≤ c && c ≤ '9' then some (digitVal c, rest)
    else none

/-- The `datetime` constructor accepts years 1..9999; a four-digit year only
fails this check when it is `0000`. -/
def yearOk (y : Nat) : Bool :=
  1 ≤ y

/-- Format `%Y<sep>%m` (`sep` is `'-'` or `'/'`), requiring full consumption. -/
def tryYearSepMonth (sep : Char) (l : List Char) : Option YMDate :=
  match take4Digits l with
  | none => none
  | some (y, r1) =>
    match r1 with
    | c :: r2 =>
      if c = sep then
        match takeMonthNum r2 with
        | some (m, []) => if yearOk y then some ⟨y, m⟩ else none
        | _ => none
      else none
    | [] => none

/-- Format `%m/%Y`, requiring full consumption. -/
def tryMonthSlashYear (l : List Char) : Option YMDate :=
  match takeMonthNum l with
  | none => none
  | some (m, r1) =>
    match r1 with
    | c :: r2 =>
      if c = '/' then
        match take4Digits r2 with
        | some (y, []) => if yearOk y then some ⟨y, m⟩ else none
        | _ => none
      else none
    | [] => none

/-- Format `%Y` alone; `strptime` defaults the month to January. -/
def tryYearOnly (l : List Char) : Option YMDate :=
  match take4Digits l with
  | some (y, []) => if yearOk y then some ⟨y, 1⟩ else none
  | _ => none

/-- Case-insensitive match of a (lowercase) month name against the input,
returning the unconsumed remainder. -/
def matchNameCI : List Char → List Char → Option (List Char)
  | [], rest => some rest
  | _ :: _, [] => none
  | p :: ps, c :: cs => if c.toLower = p then matchNameCI ps cs else none

/-- Try each month name in turn (no English month name is a prefix of
another, so the order is immaterial; calendar order is used). -/
def takeMonthName (names : List (List Char × Nat)) (l : List Char) : Option (Nat × List Char) :=
  match names with
  | [] => none
  | (nm, m) :: rest =>
    match matchNameCI nm l with
    | some r => some (m, r)
    | none => takeMonthName rest l

/-- A literal space in a `strptime` format matches one or more whitespace
characters. -/
def skipSpaces1 : List Char → Option (List Char)
  | c :: rest => if pyIsSpace c then some (rest.dropWhile pyIsSpace) else none
  | [] => none

/-- Full month names for `%B`. -/
def monthFullNames : List (List Char × Nat) :=
  [("january".data, 1), ("february".data, 2), ("march".data, 3), ("april".data, 4),
   ("may".data, 5), ("june".data, 6), ("july".data, 7), ("august".data, 8),
   ("september".data, 9), ("october".data, 10), ("november".data, 11), ("december".data, 12)]

/-- Abbreviated month names for `%b`. -/
def monthAbbrevNames : List (List Char × Nat) :=
  [("jan".data, 1), ("feb".data, 2), ("mar".data, 3), ("apr".data, 4),
   ("may".data, 5), ("jun".data, 6), ("jul".data, 7), ("aug".data, 8),
   ("sep".data, 9), ("oct".data, 10), ("nov".data, 11), ("dec".data, 12)]

/-- Formats `%B %Y` and `%b %Y`. -/
def tryNameYear (names : List (List Char × Nat)) (l : List Char) : Option YMDate :=
  match takeMonthName names l with
  | none => none
  | some (m, r1) =>
    match skipSpaces1 r1 with
    | none => none
    | some r2 =>
      match take4Digits r2 with
      | some (y, []) => if yearOk y then some ⟨y, m⟩ else none
      | _ => none

/-- `parse_date` over the character list of the input string. -/
def parse_dateL (l : List Char) : Option YMDate :=
  if l = [] then none
  else
    (tryYearSepMonth '-' l).orElse fun _ =>
    (tryYearSepMonth '/' l).orElse fun _ =>
    (tryMonthSlashYear l).orElse fun _ =>
    (tryYearOnly l).orElse fun _ =>
    (tryNameYear monthFullNames l).orElse fun _ =>
    tryNameYear monthAbbrevNames l

/-- `parse_date` (migrate_data_to_rag.py lines 930-945). -/
def parse_date (s : String) : Option YMDate :=
  parse_dateL s.data

/-! ## `parse_duration` (migrate_data_to_rag.py lines 904-928) -/

/-- The `is_current` test of line 911:
`'present' in duration_str.lower() or 'current' in duration_str.lower()`. -/
def isCurrentFlag (s : String) : Bool :=
  listInfixOf "present".data (pyLower s.data) || listInfixOf "current".data (pyLower s.data)

/-- Line 914's dash normalisation:
`duration_str.replace('–', '-').replace('—', '-')` (en dash and em dash each
become a plain hyphen; both replacements are single-character, so they are a
character map). -/
def normalizeDashes (l : List Char) : List Char :=
  l.map fun c => if c = '–' then '-' else if c = '—' then '-' else c

/-- Line 914's split: the normalised string split on `" - "`. -/
def durationParts (s : String) : List (List Char) :=
  pySplit ' ' ['-', ' '] (normalizeDashes s.data)

/-- `parse_duration` (migrate_data_to_rag.py lines 904-928): returns
`(start_date, end_date, is_current)`.  The body never raises: `parse_date`
returns `none` on unparseable input, so the `except` fallback
`(None, None, False)` is only the early-exit for the falsy (empty) string
and for a split with fewer than two parts. -/
def parse_duration (s : String) : Option YMDate × Option YMDate × Bool :=
  if s.data = [] then (none, none, false)
  else
    let is_current := isCurrentFlag s
    match durationParts s with
    | p1 :: p2 :: _ =>
      (parse_dateL (pyStrip p1), if is_current then none else parse_dateL (pyStrip p2), is_current)
    | _ => (none, none, false)

/-! ## The profile document (`data/mytwin.json`)

A parsed JSON document, with `Option` marking absent keys (`'k' in data` /
`data.get('k')` tests).  List-valued keys that the code always reads with
`data.get(k, [])` are plain lists with `[]` for absence where presence is
never tested; keys whose presence the code does test are `Option`s. -/

/-- ASCII lower-casing of a Python string (`str.lower`). -/
def strLower (s : String) : String :=
  (pyLower s.data).asString

/-- Join with `", "` (Python `', '.join`). -/
def commaJoin (xs : List String) : String :=
  String.intercalate ", " xs

/-- Newline-joined `- item` bullet lines (the `chr(10).join(f'- {x}' ...)`
template idiom). -/
def bulletLines (xs : List String) : String :=
  String.intercalate "\n" (xs.map fun a => "- " ++ a)

structure Contact where
  email : Option String := none
  linkedin : Option String := none
  github : Option String := none
  portfolio : Option String := none
deriving Repr, DecidableEq

structure PersonalInfo where
  name : Option String := none
  title : Option String := none
  location : Option String := none
  summary : Option String := none
  elevator_pitch : Option String := none
  contact : Contact := {}
deriving Repr, DecidableEq

structure Experience where
  company : Option String := none
  position : Option String := none
  duration : Option String := none
  description : Option String := none
  achievements : List String := []
  technologies : List String := []
  skills_developed : List String := []
  impact : Option String := none
  keywords : List String := []
deriving Repr, DecidableEq

structure SkillEntry where
  name : Option String := none
  proficiency : Option String := none
  experience : Option String := none
  context : Option String := none
  projects : List String := []
deriving Repr, DecidableEq

structure CategoryGroup where
  category : Option String := none
  skills : List SkillEntry := []
deriving Repr, DecidableEq

structure SoftSkill where
  skill : Option String := none
  name : Option String := none
  evidence : Option String := none
  examples : List String := []
deriving Repr, DecidableEq

structure SkillsSection where
  technical : Option (List CategoryGroup) := none
  soft_skills : Option (List SoftSkill) := none
deriving Repr, DecidableEq

structure Project where
  name : Option String := none
  type : Option String := none
  status : Option String := none
  description : Option String := none
  technologies : List String := []
  achievements : List String := []
  challenges : List String := []
  url : Option String := none
  github : Option String := none
  documentation : Option String := none
  role : Option String := none
  team_size : Option String := none
  timeline : Option String := none
deriving Repr, DecidableEq

structure EducationEntry where
  institution : Option String := none
  degree : Option String := none
  field_of_study : Option String := none
  graduation_date : Option String := none
  gpa : Option String := none
  relevant_coursework : List String := []
  thesis_projects : List String := []
  honors_awards : List String := []
  activities : List String := []
  skills : List String := []
deriving Repr, DecidableEq

/-- The top-level document.  `personalInfo = none` covers both an absent key
and a falsy (empty) `personalInfo` object, which the chunk builder's
`if personal_info:` treats alike. -/
structure Doc where
  personalInfo : Option PersonalInfo := none
  experience : Option (List Experience) := none
  skills : Option SkillsSection := none
  projects : Option (List Project) := none
  education : Option (List EducationEntry) := none
deriving Repr, DecidableEq

/-! ## Document Loader validation (migrate_data_to_rag.py lines 136-167) -/

/-- The required top-level sections (line 145). -/
def required_sections : List String :=
  ["personalInfo", "experience", "skills", "projects", "education"]

/-- `section in data` for each required section name. -/
def hasSection (doc : Doc) : String → Bool
  | "personalInfo" => doc.personalInfo.isSome
  | "experience" => doc.experience.isSome
  | "skills" => doc.skills.isSome
  | "projects" => doc.projects.isSome
  | "education" => doc.education.isSome
  | _ => false

/-- Line 146: `[section for section in required_sections if section not in data]`.
Missing sections are only logged as a warning (line 149); they never raise. -/
def missingSections (doc : Doc) : List String :=
  required_sections.filter fun s => !(hasSection doc s)

/-- The outcome of the `try` body of `load_and_validate_json` (lines 140-142):
`open` + `json.load` are external, so their result is an input of the model. -/
inductive LoadOutcome where
  | fileNotFound
  | jsonDecodeError
  | otherFailure
  | parsed (d : Doc)
deriving Repr, DecidableEq

/-- The distinct error kinds re-raised by the `except` ladder of
`load_and_validate_json` (lines 159-167): `FileNotFoundError`,
`json.JSONDecodeError`, and any other exception, in that catch order. -/
inductive LoadError where
  | fileNotFound
  | malformedJson
  | otherErr
deriving Repr, DecidableEq

/-- `load_and_validate_json` (lines 136-167): on a parsed document it only
computes (and logs) the missing-section warning list and returns the data;
each failure class of the `try` body is re-raised under its own kind. -/
def load_and_validate_json : LoadOutcome → Except LoadError (Doc × List String)
  | .fileNotFound => .error .fileNotFound
  | .jsonDecodeError => .error .malformedJson
  | .otherFailure => .error .otherErr
  | .parsed d => .ok (d, missingSections d)

/-! ## Chunk Builder: `create_content_chunks` (migrate_data_to_rag.py lines 567-764)

The rendered chunk text reproduces each template's labels, field order,
separators and list joins; the incidental leading indentation that the
triple-quoted Python f-strings carry on continuation lines is not
reproduced (no claim concerns it). -/

/-- The heterogeneous `metadata` dict of a `ContentChunk`.  Fields not set by
the builder for a given chunk type stay `none` (absent key); the persister
later adds `chunk_id` (the relational row id) and `vector_id`. -/
structure ChunkMeta where
  professional_id : Nat
  content_type : String
  name : Option String := none
  title : Option String := none
  company : Option String := none
  position : Option String := none
  duration : Option String := none
  category : Option String := none
  skill_count : Option Nat := none
  project_name : Option String := none
  project_type : Option String := none
  status : Option String := none
  institution : Option String := none
  degree : Option String := none
  field : Option String := none
  index : Option Nat := none
  chunk_id : Option Nat := none
  vector_id : Option String := none
deriving Repr, DecidableEq

/-- The `ContentChunk` dataclass (lines 50-58). -/
structure ContentChunk where
  content : String
  metadata : ChunkMeta
  chunk_type : String
  importance : String
  keywords : List String
  date_context : Option String := none
deriving Repr, DecidableEq

/-- Personal-info chunk text (lines 575-583). -/
def renderPersonalInfo (pi : PersonalInfo) : String :=
  "Professional Profile: " ++ pi.name.getD "" ++
  "\nTitle: " ++ pi.title.getD "" ++
  "\nLocation: " ++ pi.location.getD "" ++
  "\n\nSummary: " ++ pi.summary.getD "" ++
  "\n\nElevator Pitch: " ++ pi.elevator_pitch.getD ""

/-- Experience chunk text (lines 600-615). -/
def renderExperience (e : Experience) : String :=
  "Experience at " ++ e.company.getD "" ++
  "\nPosition: " ++ e.position.getD "" ++
  "\nDuration: " ++ e.duration.getD "" ++
  "\n\nDescription: " ++ e.description.getD "" ++
  "\n\nKey Achievements:\n" ++ bulletLines e.achievements ++
  "\n\nTechnologies: " ++ commaJoin e.technologies ++
  "\n\nSkills Developed: " ++ commaJoin e.skills_developed ++
  "\n\nImpact: " ++ e.impact.getD ""

/-- Technical-skill-category chunk text (lines 642-649); the context list
keeps only entries with a truthy `context`. -/
def renderSkillCategory (category : String) (skills : List SkillEntry) : String :=
  category ++ " Skills:\n\n" ++
  String.intercalate "\n" (skills.map fun s =>
    "- " ++ s.name.getD "" ++ " (" ++ s.proficiency.getD "" ++ ") - " ++
    s.experience.getD "N/A" ++ " experience") ++
  "\n\nContext and Examples:\n" ++
  String.intercalate "\n"
    ((skills.filter fun s => !(s.context.getD "" == "")).map fun s =>
      "- " ++ s.name.getD "" ++ ": " ++ s.context.getD "")

/-- Soft-skills chunk text (lines 667-674); the examples list keeps only
entries with a non-empty `examples` list. -/
def renderSoftSkills (soft : List SoftSkill) : String :=
  "Soft Skills:\n\n" ++
  String.intercalate "\n" (soft.map fun s => "- " ++ s.skill.getD "") ++
  "\n\nExamples and Context:\n" ++
  String.intercalate "\n"
    ((soft.filter fun s => !s.examples.isEmpty).map fun s =>
      "- " ++ s.skill.getD "" ++ ": " ++ commaJoin s.examples)

/-- Project chunk text (lines 691-706). -/
def renderProject (p : Project) : String :=
  "Project: " ++ p.name.getD "" ++
  "\nType: " ++ p.type.getD "" ++
  "\nStatus: " ++ p.status.getD "" ++
  "\n\nDescription: " ++ p.description.getD "" ++
  "\n\nTechnologies: " ++ commaJoin p.technologies ++
  "\n\nRole: " ++ p.role.getD "" ++
  "\n\nAchievements:\n" ++ bulletLines p.achievements ++
  "\n\nTeam Size: " ++ p.team_size.getD "N/A"

/-- Education chunk text (lines 726-740). -/
def renderEducation (e : EducationEntry) : String :=
  "Education: " ++ e.degree.getD "" ++ " in " ++ e.field_of_study.getD "" ++
  "\nInstitution: " ++ e.institution.getD "" ++
  "\nGraduation: " ++ e.graduation_date.getD "" ++
  "\nGPA: " ++ e.gpa.getD "N/A" ++
  "\n\nRelevant Coursework: " ++ commaJoin e.relevant_coursework ++
  "\n\nThesis/Projects:\n" ++ bulletLines e.thesis_projects ++
  "\n\nHonors & Awards: " ++ commaJoin e.honors_awards ++
  "\n\nActivities: " ++ commaJoin e.activities

/-- Lines 573-596: the identity chunk, built only when `personalInfo` is
present and truthy; always `importance = "high"`. -/
def personalInfoChunks (pid : Nat) (doc : Doc) : List ContentChunk :=
  match doc.personalInfo with
  | none => []
  | some pi =>
    [{ content := renderPersonalInfo pi,
       metadata := { professional_id := pid, content_type := "personal_info",
                     name := pi.name, title := pi.title },
       chunk_type := "personal_info",
       importance := "high",
       keywords := ["profile", "summary", "elevator pitch", "professional"] }]

/-- Lines 599-631: one chunk per experience entry, in document order;
`importance` is `"high"` for list positions 0-2 and `"medium"` after
(line 628). -/
def experienceChunk (pid : Nat) (ie : Nat × Experience) : ContentChunk :=
  { content := renderExperience ie.2,
    metadata := { professional_id := pid, content_type := "experience",
                  company := ie.2.company, position := ie.2.position,
                  duration := ie.2.duration, index := some ie.1 },
    chunk_type := "experience",
    importance := if ie.1 < 3 then "high" else "medium",
    keywords := ie.2.keywords ++ ["experience", "work", strLower (ie.2.company.getD "")],
    date_context := ie.2.duration }

/-- The experience chunks of a document (`enumerate` order). -/
def experienceChunks (pid : Nat) (exps : List Experience) : List ContentChunk :=
  exps.enum.map (experienceChunk pid)

/-- Lines 637-662: one chunk per technical skill category group; always
`importance = "high"`. -/
def technicalSkillChunk (pid : Nat) (g : CategoryGroup) : ContentChunk :=
  let category := g.category.getD "Technical"
  { content := renderSkillCategory category g.skills,
    metadata := { professional_id := pid, content_type := "skills",
                  category := some category, skill_count := some g.skills.length },
    chunk_type := "skills",
    importance := "high",
    keywords := ["skills", strLower category, "expertise"] ++
      g.skills.map fun s => strLower (s.name.getD "") }

/-- The technical-skill-category chunks (empty when the `technical` key is
absent). -/
def technicalSkillChunks (pid : Nat) (groups : List CategoryGroup) : List ContentChunk :=
  groups.map (technicalSkillChunk pid)

/-- Lines 665-687: a single aggregate soft-skills chunk when the
`soft_skills` key is present; always `importance = "medium"`. -/
def softSkillChunks (pid : Nat) (soft : List SoftSkill) : List ContentChunk :=
  [{ content := renderSoftSkills soft,
     metadata := { professional_id := pid, content_type := "skills",
                   category := some "Soft Skills", skill_count := some soft.length },
     chunk_type := "skills",
     importance := "medium",
     keywords := ["skills", "soft skills", "interpersonal"] ++
       soft.map fun s => strLower (s.skill.getD "") }]

/-- Lines 690-722: one chunk per project, in document order; `importance` is
`"high"` exactly when `project.get('status') == 'completed'` (line 719). -/
def projectChunk (pid : Nat) (ip : Nat × Project) : ContentChunk :=
  { content := renderProject ip.2,
    metadata := { professional_id := pid, content_type := "project",
                  project_name := ip.2.name, project_type := ip.2.type,
                  status := ip.2.status, index := some ip.1 },
    chunk_type := "project",
    importance := if ip.2.status == some "completed" then "high" else "medium",
    keywords := ["project", "portfolio"] ++ ip.2.technologies ++ [strLower (ip.2.name.getD "")],
    date_context := ip.2.timeline }

/-- The project chunks of a document. -/
def projectChunks (pid : Nat) (projs : List Project) : List ContentChunk :=
  projs.enum.map (projectChunk pid)

/-- Lines 725-756: one chunk per education entry, in document order; always
`importance = "medium"`. -/
def educationChunk (pid : Nat) (ie : Nat × EducationEntry) : ContentChunk :=
  { content := renderEducation ie.2,
    metadata := { professional_id := pid, content_type := "education",
                  institution := ie.2.institution, degree := ie.2.degree,
                  field := ie.2.field_of_study, index := some ie.1 },
    chunk_type := "education",
    importance := "medium",
    keywords := ["education", "degree", "university", strLower (ie.2.institution.getD ""),
                 strLower (ie.2.field_of_study.getD "")],
    date_context := ie.2.graduation_date }

/-- The education chunks of a document. -/
def educationChunks (pid : Nat) (edus : List EducationEntry) : List ContentChunk :=
  edus.enum.map (educationChunk pid)

/-- `create_content_chunks` (lines 567-764): the ordered chunk sequence —
identity block, experiences, technical skill categories, the soft-skills
aggregate, projects, education entries.  List sections absent from the
document contribute nothing (`data.get(k, [])` / `'k' in skills_data`). -/
def create_content_chunks (doc : Doc) (pid : Nat) : List ContentChunk :=
  personalInfoChunks pid doc ++
  experienceChunks pid (doc.experience.getD []) ++
  (match (doc.skills.getD {}).technical with
   | some groups => technicalSkillChunks pid groups
   | none => []) ++
  (match (doc.skills.getD {}).soft_skills with
   | some soft => softSkillChunks pid soft
   | none => []) ++
  projectChunks pid (doc.projects.getD []) ++
  educationChunks pid (doc.education.getD [])

/-! ## Relational Mapper (migrate_data_to_rag.py lines 169-565)

Tables are lists of rows in insertion order; `SERIAL` primary keys are
allocation counters in `DB`.  SQL `DELETE ... WHERE professional_id = %s` is
a filter; inserts append.  `NOW()` timestamps are not modelled. -/

/-- A `professionals` row (the columns the script reads/writes). -/
structure ProfRow where
  id : Nat
  email : Option String
  name : Option String
  title : Option String
  location : Option String
  linkedin : Option String
  github : Option String
  portfolio : Option String
  summary : Option String
  elevator_pitch : Option String
deriving Repr, DecidableEq

/-- An `experiences` row. -/
structure ExpRow where
  professional_id : Nat
  company : Option String
  position : Option String
  start_date : Option YMDate
  end_date : Option YMDate
  is_current : Bool
  description : Option String
  achievements : List String
  technologies : List String
  skills_developed : List String
  impact : Option String
  keywords : List String
deriving Repr, DecidableEq

/-- A `skills` row. -/
structure SkillRow where
  professional_id : Nat
  category : String
  name : Option String
  proficiency : String
  experience_years : String
  context : String
  projects : List String
  is_technical : Bool
  examples : List String
deriving Repr, DecidableEq

/-- A `projects` row. -/
structure ProjRow where
  professional_id : Nat
  name : Option String
  description : Option String
  role : Option String
  technologies : List String
  outcomes : List String
  challenges : List String
  demo_url : Option String
  repository_url : Option String
  documentation_url : Option String
  status : String
  start_date : Option YMDate
  end_date : Option YMDate
deriving Repr, DecidableEq

/-- An `education` row. -/
structure EduRow where
  professional_id : Nat
  type : String
  institution : Option String
  degree_name : Option String
  field : Option String
  graduation_date : Option YMDate
  gpa : Option String
  achievements : List String
  coursework : List String
  projects : List String
  skills : List String
  status : String
deriving Repr, DecidableEq

/-- A `json_content` row; the document itself stands in for the serialized
`content` and its SHA-256 `content_hash` (hashing is not modelled). -/
structure JsonRow where
  id : Nat
  professional_id : Nat
  version : String
  content : Doc
deriving Repr, DecidableEq

/-- A `content_chunks` row. -/
structure ChunkRow where
  id : Nat
  professional_id : Nat
  chunk_id : String
  type : String
  title : String
  content : String
  category : String
  tags : List String
  importance : String
  date_range : Option String
  vector_id : String
  embedding_model : String
deriving Repr, DecidableEq

/-- The PostgreSQL state. -/
structure DB where
  professionals : List ProfRow := []
  nextProfId : Nat := 1
  experiences : List ExpRow := []
  skills : List SkillRow := []
  projects : List ProjRow := []
  education : List EduRow := []
  json_content : List JsonRow := []
  nextJsonId : Nat := 1
  content_chunks : List ChunkRow := []
  nextChunkRowId : Nat := 1
deriving Repr, DecidableEq

/-- SQL `email = %s` in the lookup of line 179: a NULL email parameter
matches no row (SQL three-valued equality), and a NULL stored email matches
nothing either. -/
def emailMatches (e : Option String) (r : ProfRow) : Bool :=
  match r.email, e with
  | some a, some b => a == b
  | _, _ => false

/-- The `UPDATE professionals SET ...` of lines 188-207: mutable fields are
overwritten from the document; `id` and `email` are not touched. -/
def updateProfRow (pi : PersonalInfo) (r : ProfRow) : ProfRow :=
  { r with name := pi.name, title := pi.title, location := pi.location,
           linkedin := pi.contact.linkedin, github := pi.contact.github,
           portfolio := pi.contact.portfolio, summary := pi.summary,
           elevator_pitch := pi.elevator_pitch }

/-- The `INSERT INTO professionals ... RETURNING id` of lines 213-240. -/
def newProfRow (id : Nat) (pi : PersonalInfo) : ProfRow :=
  { id := id, email := pi.contact.email, name := pi.name, title := pi.title,
    location := pi.location, linkedin := pi.contact.linkedin,
    github := pi.contact.github, portfolio := pi.contact.portfolio,
    summary := pi.summary, elevator_pitch := pi.elevator_pitch }

/-- `insert_professional_data` (lines 169-250): look up by contact email
(`fetchone` = first match); update in place when found, else insert with a
fresh serial id.  Returns the professional id. -/
def insert_professional_data (pi : PersonalInfo) (db : DB) : Nat × DB :=
  match db.professionals.find? (emailMatches pi.contact.email) with
  | some r =>
    (r.id,
     { db with professionals :=
         db.professionals.map fun row => if row.id = r.id then updateProfRow pi row else row })
  | none =>
    (db.nextProfId,
     { db with professionals := db.professionals ++ [newProfRow db.nextProfId pi],
               nextProfId := db.nextProfId + 1 })

/-- `insert_experiences` row construction (lines 262-296): dates from
`parse_duration(exp.get('duration', ''))`. -/
def expToRow (pid : Nat) (e : Experience) : ExpRow :=
  let parsed := parse_duration (e.duration.getD "")
  { professional_id := pid, company := e.company, position := e.position,
    start_date := parsed.1, end_date := parsed.2.1, is_current := parsed.2.2,
    description := e.description, achievements := e.achievements,
    technologies := e.technologies, skills_developed := e.skills_developed,
    impact := e.impact, keywords := e.keywords }

/-- `insert_experiences` (lines 252-307): delete all rows owned by the
professional, then insert the document's list in order. -/
def insert_experiences (exps : List Experience) (pid : Nat) (db : DB) : DB :=
  { db with experiences :=
      db.experiences.filter (fun r => r.professional_id ≠ pid) ++ exps.map (expToRow pid) }

/-- The `all_skills` list of lines 320-350: technical category groups
flattened, then soft skills, with the documented per-field defaults. -/
def allSkillRows (pid : Nat) (sk : SkillsSection) : List SkillRow :=
  (match sk.technical with
   | some groups =>
     groups.flatMap fun g =>
       g.skills.map fun s =>
         { professional_id := pid, category := g.category.getD "Technical",
           name := s.name, proficiency := s.proficiency.getD "Intermediate",
           experience_years := s.experience.getD "", context := s.context.getD "",
           projects := s.projects, is_technical := true, examples := [] }
   | none => []) ++
  (match sk.soft_skills with
   | some soft =>
     soft.map fun s =>
       { professional_id := pid, category := "Soft Skills",
         name := some (s.skill.getD (s.name.getD "")), proficiency := "Advanced",
         experience_years := "", context := s.evidence.getD "",
         projects := [], is_technical := false, examples := s.examples }
   | none => [])

/-- `insert_skills` (lines 309-388): replace-all for the owning professional. -/
def insert_skills (sk : SkillsSection) (pid : Nat) (db : DB) : DB :=
  { db with skills :=
      db.skills.filter (fun r => r.professional_id ≠ pid) ++ allSkillRows pid sk }

/-- `insert_projects` row construction (lines 400-436): dates come from
`parse_duration(project['timeline'])` only when the `timeline` key exists. -/
def projToRow (pid : Nat) (p : Project) : ProjRow :=
  let dates : Option YMDate × Option YMDate :=
    match p.timeline with
    | some t => ((parse_duration t).1, (parse_duration t).2.1)
    | none => (none, none)
  { professional_id := pid, name := p.name, description := p.description,
    role := p.role, technologies := p.technologies, outcomes := p.achievements,
    challenges := p.challenges, demo_url := p.url, repository_url := p.github,
    documentation_url := p.documentation, status := p.status.getD "completed",
    start_date := dates.1, end_date := dates.2 }

/-- `insert_projects` (lines 390-447): replace-all for the owning professional. -/
def insert_projects (projs : List Project) (pid : Nat) (db : DB) : DB :=
  { db with projects :=
      db.projects.filter (fun r => r.professional_id ≠ pid) ++ projs.map (projToRow pid) }

/-- `insert_education` row construction (lines 459-494): the graduation date
is parsed only when the `graduation_date` key exists; type and status have
fixed defaults. -/
def eduToRow (pid : Nat) (e : EducationEntry) : EduRow :=
  { professional_id := pid, type := "degree", institution := e.institution,
    degree_name := e.degree, field := e.field_of_study,
    graduation_date :=
      match e.graduation_date with
      | some d => parse_date d
      | none => none,
    gpa := e.gpa, achievements := e.honors_awards, coursework := e.relevant_coursework,
    projects := e.thesis_projects, skills := e.skills, status := "completed" }

/-- `insert_education` (lines 449-505): replace-all for the owning
professional. -/
def insert_education (edus : List EducationEntry) (pid : Nat) (db : DB) : DB :=
  { db with education :=
      db.education.filter (fun r => r.professional_id ≠ pid) ++ edus.map (eduToRow pid) }

/-- `insert_json_content` (lines 507-565): one logical row per
`(professional, version 'v1')`; content overwritten when the row exists,
inserted with a fresh id otherwise. -/
def insert_json_content (doc : Doc) (pid : Nat) (db : DB) : Nat × DB :=
  match db.json_content.find? (fun r => r.professional_id == pid && r.version == "v1") with
  | some r =>
    (r.id,
     { db with json_content :=
         db.json_content.map fun row =>
           if row.id = r.id then { row with content := doc } else row })
  | none =>
    let row : JsonRow :=
      { id := db.nextJsonId, professional_id := pid, version := "v1", content := doc }
    (db.nextJsonId,
     { db with json_content := db.json_content ++ [row],
               nextJsonId := db.nextJsonId + 1 })

/-! ## Chunk Persister: `insert_content_chunks` (migrate_data_to_rag.py lines 766-832) -/

/-- Line 772: `chunk_id = f"chunk-{professional_id}-{chunk.chunk_type}-{i}"`,
where `i` is the chunk's global position in the builder's output sequence. -/
def chunkIdStr (pid : Nat) (ty : String) (i : Nat) : String :=
  "chunk-" ++ Nat.repr pid ++ "-" ++ ty ++ "-" ++ Nat.repr i

/-- Lines 814 and 821: the derived vector-store id `"upstash-" + chunk_id`. -/
def vectorIdStr (cid : String) : String :=
  "upstash-" ++ cid

/-- The id recovery used by the retrieval-side code
(test_rag_functionality.py lines 398-402): when the vector id starts with
`"upstash-"`, drop those 8 characters (`vector_id[8:]`); otherwise the id is
returned unchanged (the code falls back to metadata there). -/
def stripUpstash (s : String) : String :=
  if listPrefixOf "upstash-".data s.data then (s.data.drop 8).asString else s

/-- The per-type title rule of lines 790-801. -/
def chunkTitle (c : ContentChunk) : String :=
  if c.chunk_type == "experience" then
    "Experience at " ++ c.metadata.company.getD "Unknown"
  else if c.chunk_type == "project" then
    "Project: " ++ c.metadata.project_name.getD "Unknown"
  else if c.chunk_type == "skills" then
    c.metadata.category.getD "General" ++ " Skills"
  else if c.chunk_type == "education" then
    "Education at " ++ c.metadata.institution.getD "Unknown"
  else if c.chunk_type == "personal_info" then
    "Professional Profile"
  else
    c.chunk_type -- `chunk.chunk_type.title()` fallback for unknown types

/-- The `content_chunks` row inserted for chunk `c` at global index `i` with
serial row id `rowId` (lines 774-816).  `relevance_score` is the constant 1.0
and is omitted; `category` is `metadata.get('content_type', chunk_type)`. -/
def mkChunkRow (pid rowId i : Nat) (c : ContentChunk) : ChunkRow :=
  { id := rowId, professional_id := pid, chunk_id := chunkIdStr pid c.chunk_type i,
    type := c.chunk_type, title := chunkTitle c, content := c.content,
    category := c.metadata.content_type, tags := c.keywords,
    importance := c.importance, date_range := c.date_context,
    vector_id := vectorIdStr (chunkIdStr pid c.chunk_type i),
    embedding_model := "mixbread-large" }

/-- The side effect of lines 818-821: the freshly assigned relational row id
and the vector id are written back into the in-memory chunk's metadata. -/
def annotateChunk (pid rowId i : Nat) (c : ContentChunk) : ContentChunk :=
  { c with metadata :=
      { c.metadata with chunk_id := some rowId,
                        vector_id := some (vectorIdStr (chunkIdStr pid c.chunk_type i)) } }

/-- The persister loop (lines 771-823): `i` is the enumeration index, `rowId`
the next serial id; returns the updated chunks, the inserted rows, and the
next free serial id. -/
def insertChunksGo (pid : Nat) (i rowId : Nat) :
    List ContentChunk → List ContentChunk × List ChunkRow × Nat
  | [] => ([], [], rowId)
  | c :: cs =>
    let rest := insertChunksGo pid (i + 1) (rowId + 1) cs
    (annotateChunk pid rowId i c :: rest.1, mkChunkRow pid rowId i c :: rest.2.1, rest.2.2)

/-- `insert_content_chunks` (lines 766-832): persists every chunk in builder
order (no delete of prior rows — the table only grows) and returns the
mutated in-memory chunks. -/
def insert_content_chunks (chunks : List ContentChunk) (pid : Nat) (db : DB) :
    List ContentChunk × DB :=
  let res := insertChunksGo pid 0 db.nextChunkRowId chunks
  (res.1,
   { db with content_chunks := db.content_chunks ++ res.2.1, nextChunkRowId := res.2.2 })

/-! ## Vector Upserter (migrate_data_to_rag.py lines 834-902)

The external Upstash service is modelled by a failure oracle: for a given
batch, `fails attempt` says whether the service call of that (0-based)
attempt raises.  `time.sleep` is modelled by recording the slept durations. -/

/-- Line 886: `max_retries = 3`. -/
def max_retries : Nat := 3

/-- Line 887: `retry_delay = 1` (seconds). -/
def retry_delay : Nat := 1

/-- Outcome of one `_upsert_vector_batch` call.  `ok = false` means the final
exception was re-raised to the caller; `embedded` is the value of
`stats.vectors_embedded` afterwards; `attempts` counts service calls;
`delays` lists the `time.sleep` durations in order. -/
structure UpsertResult where
  ok : Bool
  embedded : Nat
  attempts : Nat
  delays : List Nat
deriving Repr, DecidableEq

/-- The retry loop of lines 889-902 over the remaining attempt indices
(`range(max_retries)`).  On success the batch size is added to
`stats.vectors_embedded` once and the loop returns; on failure before the
last attempt it sleeps `retry_delay * (attempt + 1)` and retries; on the last
attempt it re-raises.  (The loop always exits inside the body, so the
fall-through `[]` case is unreachable from `_upsert_vector_batch`.) -/
def upsertAttemptLoop (fails : Nat → Bool) (n : Nat) :
    List Nat → Nat → List Nat → UpsertResult
  | [], embedded, delays =>
    { ok := false, embedded := embedded, attempts := max_retries, delays := delays }
  | attempt :: rest, embedded, delays =>
    if fails attempt then
      if attempt < max_retries - 1 then
        upsertAttemptLoop fails n rest embedded (delays ++ [retry_delay * (attempt + 1)])
      else
        { ok := false, embedded := embedded, attempts := attempt + 1, delays := delays }
    else
      { ok := true, embedded := embedded + n, attempts := attempt + 1, delays := delays }

/-- `_upsert_vector_batch` (lines 884-902) for a batch of `n` vectors, given
the current `stats.vectors_embedded`. -/
def upsertVectorBatch (fails : Nat → Bool) (n : Nat) (embedded : Nat) : UpsertResult :=
  upsertAttemptLoop fails n (List.range max_retries) embedded []

/-- The metadata sent to the vector store (lines 857-864): the chunk's
metadata plus type, importance, keywords and date context.  The
`created_at` wall-clock timestamp is not modelled. -/
structure VecMeta where
  base : ChunkMeta
  chunk_type : String
  importance : String
  keywords : List String
  date_context : Option String
deriving Repr, DecidableEq

/-- An Upstash vector record: id, raw text for embedding, metadata. -/
structure VectorRecord where
  id : String
  data : String
  metadata : VecMeta
deriving Repr, DecidableEq

/-- Lines 853-865: the record built from a chunk;
`chunk.metadata['vector_id']` raises `KeyError` when absent (`none`). -/
def chunkToVector (c : ContentChunk) : Option VectorRecord :=
  c.metadata.vector_id.map fun vid =>
    { id := vid, data := c.content,
      metadata := { base := c.metadata, chunk_type := c.chunk_type,
                    importance := c.importance, keywords := c.keywords,
                    date_context := c.date_context } }

/-- Line 850: `batch_size = 10`. -/
def batch_size : Nat := 10

/-- The batching of lines 852-875: upsert after every ten accumulated
vectors, then the non-empty remainder.  Structural fuel recursion (each step
consumes at least one element; the zero-fuel case is unreachable from
`batchList`). -/
def batchListCore : Nat → List VectorRecord → List (List VectorRecord)
  | _, [] => []
  | 0, l => [l]
  | fuel + 1, l => l.take batch_size :: batchListCore fuel (l.drop batch_size)

/-- The sequence of batches submitted for a vector list. -/
def batchList (l : List VectorRecord) : List (List VectorRecord) :=
  batchListCore l.length l

/-- Upstash `upsert` of a single record: replace the record with the same id
if present, else append. -/
def vsUpsertOne (vs : List VectorRecord) (v : VectorRecord) : List VectorRecord :=
  if vs.any fun w => w.id == v.id then
    vs.map fun w => if w.id == v.id then v else w
  else vs ++ [v]

/-- Upstash `upsert(vectors=batch)`. -/
def vsUpsert (vs : List VectorRecord) (batch : List VectorRecord) : List VectorRecord :=
  batch.foldl vsUpsertOne vs

/-- The per-batch upsert sequence of lines 869-875: batch `k` is attempted
under the oracle `oracle k`; a batch that exhausts its retries re-raises,
aborting the remaining batches (earlier upserts and the statistics
accumulated so far are kept).  Returns (completed?, vectors_embedded, store). -/
def upsertBatches (oracle : Nat → Nat → Bool) :
    Nat → Nat → List VectorRecord → List (List VectorRecord) →
    Bool × Nat × List VectorRecord
  | _, embedded, vs, [] => (true, embedded, vs)
  | k, embedded, vs, b :: rest =>
    let r := upsertVectorBatch (oracle k) b.length embedded
    if r.ok then upsertBatches oracle (k + 1) r.embedded (vsUpsert vs b) rest
    else (false, r.embedded, vs)

/-- `generate_vector_embeddings` (lines 834-882): reset the whole index when
it is non-empty (lines 838-847), turn every chunk into a vector record
(`KeyError` when a chunk has no `vector_id`), and upsert batch by batch.
Returns (completed?, vectors_embedded, store). -/
def generate_vector_embeddings (oracle : Nat → Nat → Bool) (chunks : List ContentChunk)
    (embedded : Nat) (vs : List VectorRecord) : Bool × Nat × List VectorRecord :=
  let vs0 := if vs.length > 0 then [] else vs
  match chunks.mapM chunkToVector with
  | none => (false, embedded, vs0)
  | some vecs => upsertBatches oracle 0 embedded vs0 (batchList vecs)

/-! ## The pipeline: `main` (migrate_data_to_rag.py lines 973-1019)

The stages run strictly in sequence, each committing its own writes, so a
failure in a later stage (modelled: the vector stage, or a missing
`personalInfo` key) leaves the earlier stages' effects in place. -/

/-- The full system state threaded through one run. -/
structure SysState where
  db : DB := {}
  vs : List VectorRecord := []
  embedded : Nat := 0
deriving Repr, DecidableEq

/-- Result of one `main`-body run: `ok` is true when no exception reached the
top-level handler; `pid` is the allocated/located professional id (present
whenever `insert_professional_data` was reached). -/
structure RunOut where
  ok : Bool
  pid : Option Nat
  state : SysState
deriving Repr, DecidableEq

/-- The pipeline body of `main` (lines 984-1015) on an already-parsed
document: professional upsert, the four replace-all section inserts (each
guarded by `'section' in json_data`), the JSON-content upsert, chunk
building and persistence, then vector embedding.  A document without the
`personalInfo` key raises `KeyError` at line 990 before any write. -/
def runPipeline (oracle : Nat → Nat → Bool) (doc : Doc) (st : SysState) : RunOut :=
  match doc.personalInfo with
  | none => { ok := false, pid := none, state := st }
  | some pi =>
    let pdb := insert_professional_data pi st.db
    let pid := pdb.1
    let db2 := match doc.experience with
               | some es => insert_experiences es pid pdb.2
               | none => pdb.2
    let db3 := match doc.skills with
               | some sk => insert_skills sk pid db2
               | none => db2
    let db4 := match doc.projects with
               | some ps => insert_projects ps pid db3
               | none => db3
    let db5 := match doc.education with
               | some ed => insert_education ed pid db4
               | none => db4
    let db6 := (insert_json_content doc pid db5).2
    let chunks := create_content_chunks doc pid
    let persisted := insert_content_chunks chunks pid db6
    let vres := generate_vector_embeddings oracle persisted.1 st.embedded st.vs
    { ok := vres.1, pid := some pid,
      state := { db := persisted.2, vs := vres.2.2, embedded := vres.2.1 } }

/-! ## Mock API server: `calculate_mock_confidence` (api_server.py lines 187-202)

Python floats are IEEE-754 binary64 values: a decimal literal denotes the
nearest double, and each `+`/`-` rounds its exact result to the nearest
double (ties to even).  So `0.85 - 0.2` is `0.6499999999999999…`, not the
rational `0.65`, and `0.85 + 0.07` is `0.9199999999999999…`, not `0.92`.

The model below performs that rounding exactly.  Every double this function
ever computes lies in a binade between `2^-4` and `2^52` and is an integer
multiple of `2^-56`, so doubles are represented by their value scaled by
`2^56` (a natural number) and rounding is integer arithmetic — executable in
the kernel — with the exact rational value recovered only at the very end.
(`float56` is the identity outside those binades; nothing in this function
reaches that fallback, and the claims quantify only over the query string,
never over float inputs.) -/

/-- Round-half-to-even integer division (the IEEE-754 tie rule). -/
def rneDiv (n d : Nat) : Nat :=
  let q := n / d
  let r := n % d
  if 2 * r < d then q
  else if d < 2 * r then q + 1
  else if q % 2 = 0 then q else q + 1

/-- Binary length of a natural number (fuelled structural recursion, exact
below `2^128` — far beyond any significand this model meets). -/
def natBitsF : Nat → Nat → Nat
  | 0, _ => 0
  | fuel + 1, n => if n = 0 then 0 else natBitsF fuel (n / 2) + 1

def natBits (n : Nat) : Nat :=
  natBitsF 128 n

/-- `floorLog2 a b` is the binade exponent `e` with `2^e ≤ a/b < 2^(e+1)`
(for positive `a`, `b`): the bit-length difference, corrected by one direct
comparison. -/
def floorLog2 (a b : Nat) : Int :=
  let e : Int := (natBits a : Int) - (natBits b : Int)
  if 0 ≤ e then
    if b * 2 ^ e.toNat ≤ a then e else e - 1
  else
    if b ≤ a * 2 ^ (-e).toNat then e else e - 1

/-- The binary64 double nearest `a/b` (round to nearest, ties to even),
scaled by `2^56`, for positive values in the binades `[2^-4, 2^52)`:
the significand is the 53-bit round-half-even quotient `a·2^(52-e) / b`. -/
def float56 (a b : Nat) : Nat :=
  if a = 0 || b = 0 then 0
  else
    let e := floorLog2 a b
    if -4 ≤ e && e ≤ 52 then
      rneDiv (a * 2 ^ (52 - e).toNat) b * 2 ^ (e + 4).toNat
    else 0

/-- IEEE addition of two scaled doubles: round the exact sum. -/
def addF56 (x y : Nat) : Nat :=
  float56 (x + y) (2 ^ 56)

/-- IEEE subtraction of two scaled doubles (positive result in use): round
the exact difference. -/
def subF56 (x y : Nat) : Nat :=
  float56 (x - y) (2 ^ 56)

/-- Line 198: the technical-term list. -/
def technical_terms : List String :=
  ["database", "vector", "embedding", "sql", "performance", "latency"]

/-- `calculate_mock_confidence` (api_server.py lines 187-202), computing in
binary64: each decimal literal becomes the nearest double (`float56`), the
additions and the subtraction round their results (`addF56`/`subF56`), and
`max`/`min` on (positive) doubles is `max`/`min` on the scaled values.  The
result is returned as its exact rational value. -/
def calculate_mock_confidence (query : String) : ℚ :=
  let base_confidence : Nat := float56 85 100
  let r : Nat :=
    if query.length < 10 then
      max (float56 6 10) (subF56 base_confidence (float56 2 10))
    else if query.length > 50 then
      min (float56 95 100) (addF56 base_confidence (float56 1 10))
    else if technical_terms.any (fun t => listInfixOf t.data (pyLower query.data)) then
      min (float56 92 100) (addF56 base_confidence (float56 7 100))
    else
      base_confidence
  (r : ℚ) / 2 ^ 56

/-! ## Library-style lemmas about `Nat.repr`

`Nat.repr` is the embedding of Python's `str(int)` (decimal digits); the
chunk-id distinctness claim needs that its characters are digits, that it is
never empty, and that it is injective. -/

theorem toDigitsCore_append (fuel : Nat) :
    ∀ (n : Nat) (ds : List Char),
      Nat.toDigitsCore 10 fuel n ds = Nat.toDigitsCore 10 fuel n [] ++ ds := by
  induction fuel with
  | zero => intro n ds; simp [Nat.toDigitsCore]
  | succ fuel ih =>
    intro n ds
    simp only [Nat.toDigitsCore]
    by_cases h : n / 10 = 0
    · simp [h]
    · simp only [h, if_false]
      rw [ih (n / 10) ((n % 10).digitChar :: ds), ih (n / 10) [(n % 10).digitChar]]
      simp

theorem toDigitsCore_fuel (n : Nat) :
    ∀ (f₁ f₂ : Nat), n < f₁ → n < f₂ →
      Nat.toDigitsCore 10 f₁ n [] = Nat.toDigitsCore 10 f₂ n [] := by
  induction n using Nat.strong_induction_on with
  | _ n ih =>
    intro f₁ f₂ h₁ h₂
    match f₁, f₂ with
    | g₁ + 1, g₂ + 1 =>
      simp only [Nat.toDigitsCore]
      by_cases h : n / 10 = 0
      · simp [h]
      · simp only [h, if_false]
        rw [toDigitsCore_append g₁, toDigitsCore_append g₂]
        have hn : 0 < n := by
          rcases Nat.eq_zero_or_pos n with rfl | hp
          · simp at h
          · exact hp
        have hlt : n / 10 < n := Nat.div_lt_self hn (by omega)
        rw [ih (n / 10) hlt g₁ g₂ (by omega) (by omega)]

theorem toDigits_of_lt (n : Nat) (h : n < 10) :
    Nat.toDigits 10 n = [Nat.digitChar n] := by
  simp only [Nat.toDigits, Nat.toDigitsCore]
  have h0 : n / 10 = 0 := Nat.div_eq_of_lt h
  simp [h0, Nat.mod_eq_of_lt h]

theorem toDigits_of_ge (n : Nat) (h : 10 ≤ n) :
    Nat.toDigits 10 n = Nat.toDigits 10 (n / 10) ++ [Nat.digitChar (n % 10)] := by
  simp only [Nat.toDigits, Nat.toDigitsCore]
  have h0 : ¬ n / 10 = 0 := by
    have : 1 ≤ n / 10 := Nat.one_le_div_iff (by omega) |>.mpr h
    omega
  simp only [h0, if_false]
  rw [toDigitsCore_append n]
  have hlt : n / 10 < n := Nat.div_lt_self (by omega) (by omega)
  rw [toDigitsCore_fuel (n / 10) n (n / 10 + 1) hlt (by omega)]
  simp only [Nat.toDigitsCore]

theorem digitChar_isDigit (m : Nat) (h : m < 10) : (Nat.digitChar m).isDigit = true := by
  interval_cases m <;> decide

theorem digitVal_digitChar (m : Nat) (h : m < 10) : digitVal (Nat.digitChar m) = m := by
  interval_cases m <;> decide

theorem toDigits_all_isDigit (n : Nat) : ∀ c ∈ Nat.toDigits 10 n, c.isDigit = true := by
  induction n using Nat.strong_induction_on with
  | _ n ih =>
    intro c hc
    by_cases h : n < 10
    · rw [toDigits_of_lt n h] at hc
      simp at hc
      subst hc
      exact digitChar_isDigit n h
    · rw [toDigits_of_ge n (by omega)] at hc
      rcases List.mem_append.mp hc with h1 | h2
      · exact ih (n / 10) (Nat.div_lt_self (by omega) (by omega)) c h1
      · simp at h2
        subst h2
        exact digitChar_isDigit _ (Nat.mod_lt n (by omega))

theorem toDigits_ne_nil (n : Nat) : Nat.toDigits 10 n ≠ [] := by
  by_cases h : n < 10
  · rw [toDigits_of_lt n h]; simp
  · rw [toDigits_of_ge n (by omega)]; simp

/-- Decimal value of a digit string (left fold), the inverse of
`Nat.toDigits 10`. -/
def decValue (l : List Char) : Nat :=
  l.foldl (fun a c => 10 * a + digitVal c) 0

theorem decValue_toDigits (n : Nat) : decValue (Nat.toDigits 10 n) = n := by
  induction n using Nat.strong_induction_on with
  | _ n ih =>
    by_cases h : n < 10
    · rw [toDigits_of_lt n h]
      simp [decValue, digitVal_digitChar n h]
    · rw [toDigits_of_ge n (by omega)]
      unfold decValue
      rw [List.foldl_append]
      have := ih (n / 10) (Nat.div_lt_self (by omega) (by omega))
      unfold decValue at this
      rw [this]
      simp [digitVal_digitChar _ (Nat.mod_lt n (by omega))]
      omega

theorem toDigits_injective (m n : Nat) (h : Nat.toDigits 10 m = Nat.toDigits 10 n) :
    m = n := by
  have := congrArg decValue h
  rwa [decValue_toDigits, decValue_toDigits] at this

theorem repr_data (n : Nat) : (Nat.repr n).data = Nat.toDigits 10 n := rfl

theorem repr_injective (m n : Nat) (h : Nat.repr m = Nat.repr n) : m = n := by
  have hd := congrArg String.data h
  rw [repr_data, repr_data] at hd
  exact toDigits_injective m n hd

/-! ## Chunk-id and vector-id string lemmas -/

theorem listPrefixOf_append (l r : List Char) : listPrefixOf l (l ++ r) = true := by
  induction l with
  | nil => rfl
  | cons a as ih => simp [listPrefixOf, ih]

/-- Round-trip: stripping the `"upstash-"` namespace from a derived vector id
recovers the chunk id exactly. -/
theorem stripUpstash_vectorIdStr (cid : String) : stripUpstash (vectorIdStr cid) = cid := by
  unfold stripUpstash vectorIdStr
  rw [String.data_append, if_pos (listPrefixOf_append _ _)]
  have h8 : ("upstash-".data).length = 8 := rfl
  rw [← h8, List.drop_left]
  rfl

theorem takeWhile_append_of_mem (p : Char → Bool) (l₁ : List Char) (x : Char) (l₂ : List Char)
    (h1 : ∀ c ∈ l₁, p c = true) (h2 : p x = false) :
    (l₁ ++ x :: l₂).takeWhile p = l₁ := by
  induction l₁ with
  | nil => simp [List.takeWhile_cons, h2]
  | cons a as ih =>
    have ha : p a = true := h1 a (by simp)
    simp only [List.cons_append, List.takeWhile_cons, ha, if_true]
    rw [ih fun c hc => h1 c (by simp [hc])]

/-- The maximal dash-free suffix of a character list, reversed back into
reading order: for `pre ++ '-' :: digits` this recovers `digits`. -/
def lastDashSeg (l : List Char) : List Char :=
  (l.reverse.takeWhile fun c => !(c == '-')).reverse

theorem lastDashSeg_append (pre d : List Char) (hd : ∀ c ∈ d, (c == '-') = false) :
    lastDashSeg (pre ++ '-' :: d) = d := by
  unfold lastDashSeg
  rw [List.reverse_append, List.reverse_cons]
  rw [List.append_assoc, List.singleton_append]
  rw [takeWhile_append_of_mem _ d.reverse '-' _
    (fun c hc => by simp [hd c (List.mem_reverse.mp hc)]) (by decide)]
  simp

theorem isDigit_ne_dash (c : Char) (h : c.isDigit = true) : (c == '-') = false := by
  by_cases hc : c = '-'
  · subst hc
    exact absurd h (by decide)
  · simp [beq_iff_eq, hc]

theorem lastDashSeg_chunkIdStr (pid : Nat) (ty : String) (i : Nat) :
    lastDashSeg (chunkIdStr pid ty i).data = (Nat.repr i).data := by
  unfold chunkIdStr
  have hd : ∀ c ∈ (Nat.repr i).data, (c == '-') = false := by
    intro c hc
    rw [repr_data] at hc
    exact isDigit_ne_dash c (toDigits_all_isDigit i c hc)
  have : ("chunk-" ++ Nat.repr pid ++ "-" ++ ty ++ "-" ++ Nat.repr i).data =
      ("chunk-".data ++ (Nat.repr pid).data ++ ['-'] ++ ty.data) ++ '-' :: (Nat.repr i).data := by
    simp [String.data_append, List.append_assoc]
  rw [this, lastDashSeg_append _ _ hd]

/-- Two chunk ids produced with distinct global indices differ, whatever the
chunk types are. -/
theorem chunkIdStr_ne_of_index_ne (pid : Nat) (t₁ t₂ : String) (i j : Nat) (hij : i ≠ j) :
    chunkIdStr pid t₁ i ≠ chunkIdStr pid t₂ j := by
  intro h
  apply hij
  have hd := congrArg (fun s => lastDashSeg s.data) h
  simp only [lastDashSeg_chunkIdStr] at hd
  rw [repr_data, repr_data] at hd
  exact toDigits_injective i j hd

theorem vectorIdStr_inj (c₁ c₂ : String) (h : vectorIdStr c₁ = vectorIdStr c₂) : c₁ = c₂ := by
  have := congrArg stripUpstash h
  rwa [stripUpstash_vectorIdStr, stripUpstash_vectorIdStr] at this

/-! ## Characterisation of the persister loop -/

theorem insertChunksGo_rows (cs : List ContentChunk) :
    ∀ (pid i rowId j : Nat),
      ((insertChunksGo pid i rowId cs).2.1)[j]? =
        cs[j]?.map fun c => mkChunkRow pid (rowId + j) (i + j) c := by
  induction cs with
  | nil => intro pid i rowId j; simp [insertChunksGo]
  | cons c cs ih =>
    intro pid i rowId j
    cases j with
    | zero => simp [insertChunksGo]
    | succ j =>
      simp only [insertChunksGo, List.getElem?_cons_succ]
      rw [ih pid (i + 1) (rowId + 1) j]
      have h1 : rowId + 1 + j = rowId + (j + 1) := by omega
      have h2 : i + 1 + j = i + (j + 1) := by omega
      rw [h1, h2]

theorem insertChunksGo_chunks (cs : List ContentChunk) :
    ∀ (pid i rowId j : Nat),
      ((insertChunksGo pid i rowId cs).1)[j]? =
        cs[j]?.map fun c => annotateChunk pid (rowId + j) (i + j) c := by
  induction cs with
  | nil => intro pid i rowId j; simp [insertChunksGo]
  | cons c cs ih =>
    intro pid i rowId j
    cases j with
    | zero => simp [insertChunksGo]
    | succ j =>
      simp only [insertChunksGo, List.getElem?_cons_succ]
      rw [ih pid (i + 1) (rowId + 1) j]
      have h1 : rowId + 1 + j = rowId + (j + 1) := by omega
      have h2 : i + 1 + j = i + (j + 1) := by omega
      rw [h1, h2]

theorem insertChunksGo_mem_chunks (cs : List ContentChunk) :
    ∀ (pid i rowId : Nat) (c : ContentChunk), c ∈ (insertChunksGo pid i rowId cs).1 →
      ∃ rid idx orig, c = annotateChunk pid rid idx orig := by
  induction cs with
  | nil => intro pid i rowId c hc; simp [insertChunksGo] at hc
  | cons a cs ih =>
    intro pid i rowId c hc
    simp only [insertChunksGo, List.mem_cons] at hc
    rcases hc with rfl | hc
    · exact ⟨rowId, i, a, rfl⟩
    · exact ih pid (i + 1) (rowId + 1) c hc

/-- The rows appended by `insert_content_chunks`. -/
theorem insert_content_chunks_new_rows (chunks : List ContentChunk) (pid : Nat) (db : DB) :
    ((insert_content_chunks chunks pid db).2.content_chunks.drop db.content_chunks.length) =
      (insertChunksGo pid 0 db.nextChunkRowId chunks).2.1 := by
  simp only [insert_content_chunks]
  rw [List.drop_left]

/-! ## Characterisation of the chunk builder output -/

theorem filter_chunk_type_nil {t : String} {l : List ContentChunk}
    (h : ∀ c ∈ l, c.chunk_type ≠ t) : l.filter (fun c => c.chunk_type == t) = [] := by
  rw [List.filter_eq_nil_iff]
  intro a ha
  simp only [beq_iff_eq]
  exact h a ha

theorem filter_chunk_type_self {t : String} {l : List ContentChunk}
    (h : ∀ c ∈ l, c.chunk_type = t) : l.filter (fun c => c.chunk_type == t) = l := by
  rw [List.filter_eq_self]
  intro a ha
  simp only [beq_iff_eq]
  exact h a ha

theorem personalInfoChunks_mem (pid : Nat) (doc : Doc) (c : ContentChunk)
    (hc : c ∈ personalInfoChunks pid doc) :
    c.chunk_type = "personal_info" ∧ c.importance = "high" := by
  unfold personalInfoChunks at hc
  rcases h : doc.personalInfo with _ | pi <;> rw [h] at hc
  · simp at hc
  · simp only [List.mem_singleton] at hc
    subst hc
    exact ⟨rfl, rfl⟩

theorem experienceChunks_mem (pid : Nat) (exps : List Experience) (c : ContentChunk)
    (hc : c ∈ experienceChunks pid exps) : c.chunk_type = "experience" := by
  simp only [experienceChunks, List.mem_map] at hc
  obtain ⟨x, _, rfl⟩ := hc
  rfl

theorem technicalSkillChunks_mem (pid : Nat) (groups : List CategoryGroup) (c : ContentChunk)
    (hc : c ∈ technicalSkillChunks pid groups) :
    c.chunk_type = "skills" ∧ c.importance = "high" := by
  simp only [technicalSkillChunks, List.mem_map] at hc
  obtain ⟨x, _, rfl⟩ := hc
  exact ⟨rfl, rfl⟩

theorem softSkillChunks_mem (pid : Nat) (soft : List SoftSkill) (c : ContentChunk)
    (hc : c ∈ softSkillChunks pid soft) :
    c.chunk_type = "skills" ∧ c.importance = "medium" := by
  simp only [softSkillChunks, List.mem_singleton] at hc
  subst hc
  exact ⟨rfl, rfl⟩

theorem projectChunks_mem (pid : Nat) (projs : List Project) (c : ContentChunk)
    (hc : c ∈ projectChunks pid projs) : c.chunk_type = "project" := by
  simp only [projectChunks, List.mem_map] at hc
  obtain ⟨x, _, rfl⟩ := hc
  rfl

theorem educationChunks_mem (pid : Nat) (edus : List EducationEntry) (c : ContentChunk)
    (hc : c ∈ educationChunks pid edus) :
    c.chunk_type = "education" ∧ c.importance = "medium" := by
  simp only [educationChunks, List.mem_map] at hc
  obtain ⟨x, _, rfl⟩ := hc
  exact ⟨rfl, rfl⟩

/-- The technical-skill segment of `create_content_chunks` (the first
`match`), with its type fact. -/
theorem techSegment_mem (doc : Doc) (pid : Nat) (c : ContentChunk)
    (hc : c ∈ (match (doc.skills.getD {}).technical with
               | some groups => technicalSkillChunks pid groups
               | none => [])) :
    c.chunk_type = "skills" ∧ c.importance = "high" := by
  rcases h : (doc.skills.getD {}).technical with _ | groups <;> rw [h] at hc
  · simp at hc
  · exact technicalSkillChunks_mem pid groups c hc

theorem softSegment_mem (doc : Doc) (pid : Nat) (c : ContentChunk)
    (hc : c ∈ (match (doc.skills.getD {}).soft_skills with
               | some soft => softSkillChunks pid soft
               | none => [])) :
    c.chunk_type = "skills" ∧ c.importance = "medium" := by
  rcases h : (doc.skills.getD {}).soft_skills with _ | soft <;> rw [h] at hc
  · simp at hc
  · exact softSkillChunks_mem pid soft c hc

theorem filter_experience_chunks (doc : Doc) (pid : Nat) :
    (create_content_chunks doc pid).filter (fun c => c.chunk_type == "experience") =
      experienceChunks pid (doc.experience.getD []) := by
  unfold create_content_chunks
  rw [List.filter_append, List.filter_append, List.filter_append, List.filter_append,
      List.filter_append]
  rw [filter_chunk_type_nil (fun c hc => by
        rw [(personalInfoChunks_mem pid doc c hc).1]; decide)]
  rw [filter_chunk_type_self (fun c hc => experienceChunks_mem pid _ c hc)]
  rw [filter_chunk_type_nil (fun c hc => by
        rw [(techSegment_mem doc pid c hc).1]; decide)]
  rw [filter_chunk_type_nil (fun c hc => by
        rw [(softSegment_mem doc pid c hc).1]; decide)]
  rw [filter_chunk_type_nil (fun c hc => by
        rw [projectChunks_mem pid _ c hc]; decide)]
  rw [filter_chunk_type_nil (fun c hc => by
        rw [(educationChunks_mem pid _ c hc).1]; decide)]
  simp

theorem filter_project_chunks (doc : Doc) (pid : Nat) :
    (create_content_chunks doc pid).filter (fun c => c.chunk_type == "project") =
      projectChunks pid (doc.projects.getD []) := by
  unfold create_content_chunks
  rw [List.filter_append, List.filter_append, List.filter_append, List.filter_append,
      List.filter_append]
  rw [filter_chunk_type_nil (fun c hc => by
        rw [(personalInfoChunks_mem pid doc c hc).1]; decide)]
  rw [filter_chunk_type_nil (fun c hc => by
        rw [experienceChunks_mem pid _ c hc]; decide)]
  rw [filter_chunk_type_nil (fun c hc => by
        rw [(techSegment_mem doc pid c hc).1]; decide)]
  rw [filter_chunk_type_nil (fun c hc => by
        rw [(softSegment_mem doc pid c hc).1]; decide)]
  rw [filter_chunk_type_self (fun c hc => projectChunks_mem pid _ c hc)]
  rw [filter_chunk_type_nil (fun c hc => by
        rw [(educationChunks_mem pid _ c hc).1]; decide)]
  simp

theorem filter_education_chunks (doc : Doc) (pid : Nat) :
    (create_content_chunks doc pid).filter (fun c => c.chunk_type == "education") =
      educationChunks pid (doc.education.getD []) := by
  unfold create_content_chunks
  rw [List.filter_append, List.filter_append, List.filter_append, List.filter_append,
      List.filter_append]
  rw [filter_chunk_type_nil (fun c hc => by
        rw [(personalInfoChunks_mem pid doc c hc).1]; decide)]
  rw [filter_chunk_type_nil (fun c hc => by
        rw [experienceChunks_mem pid _ c hc]; decide)]
  rw [filter_chunk_type_nil (fun c hc => by
        rw [(techSegment_mem doc pid c hc).1]; decide)]
  rw [filter_chunk_type_nil (fun c hc => by
        rw [(softSegment_mem doc pid c hc).1]; decide)]
  rw [filter_chunk_type_nil (fun c hc => by
        rw [projectChunks_mem pid _ c hc]; decide)]
  rw [filter_chunk_type_self (fun c hc => (educationChunks_mem pid _ c hc).1)]
  simp

theorem experienceChunks_getElem (pid : Nat) (exps : List Experience) (i : Nat) :
    (experienceChunks pid exps)[i]? = exps[i]?.map fun e => experienceChunk pid (i, e) := by
  simp only [experienceChunks, List.getElem?_map, List.getElem?_enum]
  cases exps[i]? <;> simp

theorem projectChunks_getElem (pid : Nat) (projs : List Project) (i : Nat) :
    (projectChunks pid projs)[i]? = projs[i]?.map fun p => projectChunk pid (i, p) := by
  simp only [projectChunks, List.getElem?_map, List.getElem?_enum]
  cases projs[i]? <;> simp

/-! ## Which tables each stage touches -/

theorem prof_stage_experiences (pi : PersonalInfo) (db : DB) :
    ((insert_professional_data pi db).2).experiences = db.experiences := by
  unfold insert_professional_data
  split <;> rfl

theorem prof_stage_skills (pi : PersonalInfo) (db : DB) :
    ((insert_professional_data pi db).2).skills = db.skills := by
  unfold insert_professional_data
  split <;> rfl

theorem prof_stage_projects (pi : PersonalInfo) (db : DB) :
    ((insert_professional_data pi db).2).projects = db.projects := by
  unfold insert_professional_data
  split <;> rfl

theorem prof_stage_education (pi : PersonalInfo) (db : DB) :
    ((insert_professional_data pi db).2).education = db.education := by
  unfold insert_professional_data
  split <;> rfl

theorem json_stage_professionals (doc : Doc) (pid : Nat) (db : DB) :
    ((insert_json_content doc pid db).2).professionals = db.professionals := by
  unfold insert_json_content
  split <;> rfl

theorem json_stage_nextProfId (doc : Doc) (pid : Nat) (db : DB) :
    ((insert_json_content doc pid db).2).nextProfId = db.nextProfId := by
  unfold insert_json_content
  split <;> rfl

theorem json_stage_experiences (doc : Doc) (pid : Nat) (db : DB) :
    ((insert_json_content doc pid db).2).experiences = db.experiences := by
  unfold insert_json_content
  split <;> rfl

theorem json_stage_skills (doc : Doc) (pid : Nat) (db : DB) :
    ((insert_json_content doc pid db).2).skills = db.skills := by
  unfold insert_json_content
  split <;> rfl

theorem json_stage_projects (doc : Doc) (pid : Nat) (db : DB) :
    ((insert_json_content doc pid db).2).projects = db.projects := by
  unfold insert_json_content
  split <;> rfl

theorem json_stage_education (doc : Doc) (pid : Nat) (db : DB) :
    ((insert_json_content doc pid db).2).education = db.education := by
  unfold insert_json_content
  split <;> rfl

/-! ## Idempotence of the professional upsert -/

theorem updateProfRow_idem (pi : PersonalInfo) (r : ProfRow) :
    updateProfRow pi (updateProfRow pi r) = updateProfRow pi r := rfl

theorem emailMatches_updateProfRow (x : Option String) (pi : PersonalInfo) (r : ProfRow) :
    emailMatches x (updateProfRow pi r) = emailMatches x r := rfl

/-- The per-row update function of the found branch. -/
def profUpdateFn (pi : PersonalInfo) (rid : Nat) (row : ProfRow) : ProfRow :=
  if row.id = rid then updateProfRow pi row else row

theorem profUpdateFn_email (pi : PersonalInfo) (rid : Nat) (x : Option String) (row : ProfRow) :
    emailMatches x (profUpdateFn pi rid row) = emailMatches x row := by
  unfold profUpdateFn
  split <;> rfl

theorem profUpdateFn_idem (pi : PersonalInfo) (rid : Nat) (row : ProfRow) :
    profUpdateFn pi rid (profUpdateFn pi rid row) = profUpdateFn pi rid row := by
  unfold profUpdateFn
  by_cases h : row.id = rid
  · simp only [h, if_pos rfl]
    have hid : (updateProfRow pi row).id = rid := h
    simp [hid, updateProfRow_idem]
  · simp [h]

theorem insert_professional_data_eq (pi : PersonalInfo) (db : DB) :
    insert_professional_data pi db =
      match db.professionals.find? (emailMatches pi.contact.email) with
      | some r =>
        (r.id, { db with professionals := db.professionals.map (profUpdateFn pi r.id) })
      | none =>
        (db.nextProfId,
         { db with professionals := db.professionals ++ [newProfRow db.nextProfId pi],
                   nextProfId := db.nextProfId + 1 }) := rfl

/-- Running the professional upsert a second time — on any database whose
`professionals` table is the first run's output — returns the same key and
leaves the table unchanged, and the table then holds exactly one row with the
document's email. -/
theorem prof_upsert_twice (pi : PersonalInfo) (e : String) (he : pi.contact.email = some e)
    (db db' : DB)
    (hu : (db.professionals.filter (emailMatches (some e))).length ≤ 1)
    (hf : ∀ r ∈ db.professionals, r.id < db.nextProfId)
    (hprofs : db'.professionals = ((insert_professional_data pi db).2).professionals) :
    (insert_professional_data pi db').1 = (insert_professional_data pi db).1 ∧
    ((insert_professional_data pi db').2).professionals = db'.professionals ∧
    (db'.professionals.filter (emailMatches (some e))).length = 1 := by
  rcases hfind : db.professionals.find? (emailMatches pi.contact.email) with _ | r
  · -- first run inserts a fresh row
    have hnew : emailMatches (some e) (newProfRow db.nextProfId pi) = true := by
      unfold emailMatches newProfRow
      rw [he]
      simp
    have hnone : ∀ x ∈ db.professionals, ¬ emailMatches (some e) x = true := by
      rw [he] at hfind
      exact List.find?_eq_none.mp hfind
    have hp1 : db'.professionals = db.professionals ++ [newProfRow db.nextProfId pi] := by
      rw [hprofs, insert_professional_data_eq, hfind]
    have hfind' : db'.professionals.find? (emailMatches pi.contact.email) =
        some (newProfRow db.nextProfId pi) := by
      rw [hp1, List.find?_append, he]
      rw [List.find?_eq_none.mpr hnone]
      simp [List.find?, hnew]
    constructor
    · rw [insert_professional_data_eq pi db', hfind', insert_professional_data_eq pi db, hfind]
      rfl
    constructor
    · rw [insert_professional_data_eq pi db', hfind']
      show db'.professionals.map (profUpdateFn pi (newProfRow db.nextProfId pi).id) =
        db'.professionals
      have : ∀ row ∈ db'.professionals,
          profUpdateFn pi (newProfRow db.nextProfId pi).id row = row := by
        intro row hrow
        rw [hp1] at hrow
        rcases List.mem_append.mp hrow with hl | hr
        · unfold profUpdateFn
          have : row.id < db.nextProfId := hf row hl
          have hne : ¬ row.id = (newProfRow db.nextProfId pi).id := by
            show ¬ row.id = db.nextProfId
            omega
          simp [hne]
        · simp only [List.mem_singleton] at hr
          subst hr
          unfold profUpdateFn
          simp [updateProfRow, newProfRow]
      calc db'.professionals.map (profUpdateFn pi (newProfRow db.nextProfId pi).id)
          = db'.professionals.map id := List.map_congr_left fun a ha => this a ha
        _ = db'.professionals := List.map_id _
    · rw [hp1, List.filter_append]
      rw [List.filter_eq_nil_iff.mpr hnone]
      simp [hnew]
  · -- first run updates the found row in place
    have hPr : emailMatches (some e) r = true := by
      rw [he] at hfind
      exact List.find?_some hfind
    have hmem : r ∈ db.professionals := List.mem_of_find?_eq_some hfind
    have hp1 : db'.professionals = db.professionals.map (profUpdateFn pi r.id) := by
      rw [hprofs, insert_professional_data_eq, hfind]
    have hPF : ∀ x, emailMatches (some e) (profUpdateFn pi r.id x) = emailMatches (some e) x :=
      fun x => profUpdateFn_email pi r.id (some e) x
    have hfind' : db'.professionals.find? (emailMatches pi.contact.email) =
        some (profUpdateFn pi r.id r) := by
      rw [hp1, he, List.find?_map]
      have : (emailMatches (some e)) ∘ (profUpdateFn pi r.id) = emailMatches (some e) := by
        funext x
        exact hPF x
      rw [this]
      rw [he] at hfind
      rw [hfind]
      rfl
    have hFid : (profUpdateFn pi r.id r).id = r.id := by
      unfold profUpdateFn
      simp [updateProfRow]
    constructor
    · rw [insert_professional_data_eq pi db', hfind', insert_professional_data_eq pi db, hfind]
      simpa using hFid
    constructor
    · rw [insert_professional_data_eq pi db', hfind']
      show db'.professionals.map (profUpdateFn pi (profUpdateFn pi r.id r).id) =
        db'.professionals
      rw [hFid, hp1, List.map_map]
      have : (profUpdateFn pi r.id) ∘ (profUpdateFn pi r.id) = profUpdateFn pi r.id := by
        funext x
        exact profUpdateFn_idem pi r.id x
      rw [this]
    · rw [hp1]
      rw [List.filter_map]
      have hcomp : (emailMatches (some e)) ∘ (profUpdateFn pi r.id) = emailMatches (some e) := by
        funext x
        exact hPF x
      rw [hcomp, List.length_map]
      have hge : 0 < (db.professionals.filter (emailMatches (some e))).length := by
        have hmf : r ∈ db.professionals.filter (emailMatches (some e)) :=
          List.mem_filter.mpr ⟨hmem, hPr⟩
        exact List.length_pos.mpr (List.ne_nil_of_mem hmf)
      omega

/-! ## Vector-stage helper lemmas -/

theorem upsertVectorBatch_first_ok (fails : Nat → Bool) (n e : Nat) (h : fails 0 = false) :
    upsertVectorBatch fails n e = { ok := true, embedded := e + n, attempts := 1, delays := [] } := by
  have hr : List.range max_retries = [0, 1, 2] := rfl
  unfold upsertVectorBatch
  rw [hr]
  simp [upsertAttemptLoop, h]

theorem upsertBatches_all_ok (oracle : Nat → Nat → Bool) (h : ∀ k, oracle k 0 = false)
    (bs : List (List VectorRecord)) :
    ∀ (k e : Nat) (vs : List VectorRecord), (upsertBatches oracle k e vs bs).1 = true := by
  induction bs with
  | nil => intro k e vs; rfl
  | cons b rest ih =>
    intro k e vs
    simp only [upsertBatches]
    rw [upsertVectorBatch_first_ok _ _ _ (h k)]
    simpa using ih (k + 1) (e + b.length) (vsUpsert vs b)

theorem chunkToVector_annotateChunk (pid rid i : Nat) (c : ContentChunk) :
    chunkToVector (annotateChunk pid rid i c) =
      some { id := vectorIdStr (chunkIdStr pid c.chunk_type i), data := c.content,
             metadata := { base := (annotateChunk pid rid i c).metadata,
                           chunk_type := c.chunk_type, importance := c.importance,
                           keywords := c.keywords, date_context := c.date_context } } := rfl

theorem insertChunksGo_mapM_isSome (cs : List ContentChunk) :
    ∀ (pid i rowId : Nat),
      ∃ vecs, ((insertChunksGo pid i rowId cs).1).mapM chunkToVector = some vecs := by
  induction cs with
  | nil => intro pid i rowId; exact ⟨[], rfl⟩
  | cons c cs ih =>
    intro pid i rowId
    obtain ⟨vecs, hv⟩ := ih pid (i + 1) (rowId + 1)
    simp only [insertChunksGo, List.mapM_cons, chunkToVector_annotateChunk, hv,
      Option.bind_eq_bind, Option.some_bind]
    exact ⟨_, rfl⟩

theorem genVE_ok (oracle : Nat → Nat → Bool) (chunks : List ContentChunk)
    (e : Nat) (vs : List VectorRecord)
    (hm : ∃ vecs, chunks.mapM chunkToVector = some vecs)
    (h : ∀ k, oracle k 0 = false) :
    (generate_vector_embeddings oracle chunks e vs).1 = true := by
  obtain ⟨vecs, hv⟩ := hm
  unfold generate_vector_embeddings
  rw [hv]
  exact upsertBatches_all_ok oracle h _ 0 e _

/-! ## Pipeline projection lemmas -/

theorem runPipeline_ok_of_all_success (oracle : Nat → Nat → Bool) (doc : Doc) (st : SysState)
    (pi : PersonalInfo) (hpi : doc.personalInfo = some pi) (h : ∀ k, oracle k 0 = false) :
    (runPipeline oracle doc st).ok = true := by
  simp only [runPipeline, hpi]
  apply genVE_ok
  · exact insertChunksGo_mapM_isSome _ _ 0 _
  · exact h

theorem runPipeline_pid (oracle : Nat → Nat → Bool) (doc : Doc) (st : SysState)
    (pi : PersonalInfo) (hpi : doc.personalInfo = some pi) :
    (runPipeline oracle doc st).pid = some (insert_professional_data pi st.db).1 := by
  simp only [runPipeline, hpi]

theorem runPipeline_professionals (oracle : Nat → Nat → Bool) (doc : Doc) (st : SysState)
    (pi : PersonalInfo) (hpi : doc.personalInfo = some pi) :
    (runPipeline oracle doc st).state.db.professionals =
      ((insert_professional_data pi st.db).2).professionals := by
  rcases hes : doc.experience with _ | es <;> rcases hsk : doc.skills with _ | sk <;>
    rcases hps : doc.projects with _ | ps <;> rcases hed : doc.education with _ | ed <;>
    simp only [runPipeline, hpi, hes, hsk, hps, hed, insert_experiences, insert_skills,
      insert_projects, insert_education, insert_content_chunks, json_stage_professionals]

theorem runPipeline_nextProfId (oracle : Nat → Nat → Bool) (doc : Doc) (st : SysState)
    (pi : PersonalInfo) (hpi : doc.personalInfo = some pi) :
    (runPipeline oracle doc st).state.db.nextProfId =
      ((insert_professional_data pi st.db).2).nextProfId := by
  rcases hes : doc.experience with _ | es <;> rcases hsk : doc.skills with _ | sk <;>
    rcases hps : doc.projects with _ | ps <;> rcases hed : doc.education with _ | ed <;>
    simp only [runPipeline, hpi, hes, hsk, hps, hed, insert_experiences, insert_skills,
      insert_projects, insert_education, insert_content_chunks, json_stage_nextProfId]

theorem runPipeline_experiences (oracle : Nat → Nat → Bool) (doc : Doc) (st : SysState)
    (pi : PersonalInfo) (es : List Experience)
    (hpi : doc.personalInfo = some pi) (hes : doc.experience = some es) :
    (runPipeline oracle doc st).state.db.experiences =
      st.db.experiences.filter
          (fun r => r.professional_id ≠ (insert_professional_data pi st.db).1) ++
        es.map (expToRow (insert_professional_data pi st.db).1) := by
  rcases hsk : doc.skills with _ | sk <;> rcases hps : doc.projects with _ | ps <;>
    rcases hed : doc.education with _ | ed <;>
    simp only [runPipeline, hpi, hes, hsk, hps, hed, insert_experiences, insert_skills,
      insert_projects, insert_education, insert_content_chunks, json_stage_experiences,
      prof_stage_experiences]

theorem runPipeline_skills (oracle : Nat → Nat → Bool) (doc : Doc) (st : SysState)
    (pi : PersonalInfo) (sk : SkillsSection)
    (hpi : doc.personalInfo = some pi) (hsk : doc.skills = some sk) :
    (runPipeline oracle doc st).state.db.skills =
      st.db.skills.filter
          (fun r => r.professional_id ≠ (insert_professional_data pi st.db).1) ++
        allSkillRows (insert_professional_data pi st.db).1 sk := by
  rcases hes : doc.experience with _ | es <;> rcases hps : doc.projects with _ | ps <;>
    rcases hed : doc.education with _ | ed <;>
    simp only [runPipeline, hpi, hes, hsk, hps, hed, insert_experiences, insert_skills,
      insert_projects, insert_education, insert_content_chunks, json_stage_skills,
      prof_stage_skills]

theorem runPipeline_projects (oracle : Nat → Nat → Bool) (doc : Doc) (st : SysState)
    (pi : PersonalInfo) (ps : List Project)
    (hpi : doc.personalInfo = some pi) (hps : doc.projects = some ps) :
    (runPipeline oracle doc st).state.db.projects =
      st.db.projects.filter
          (fun r => r.professional_id ≠ (insert_professional_data pi st.db).1) ++
        ps.map (projToRow (insert_professional_data pi st.db).1) := by
  rcases hes : doc.experience with _ | es <;> rcases hsk : doc.skills with _ | sk <;>
    rcases hed : doc.education with _ | ed <;>
    simp only [runPipeline, hpi, hes, hsk, hps, hed, insert_experiences, insert_skills,
      insert_projects, insert_education, insert_content_chunks, json_stage_projects,
      prof_stage_projects]

theorem runPipeline_education (oracle : Nat → Nat → Bool) (doc : Doc) (st : SysState)
    (pi : PersonalInfo) (ed : List EducationEntry)
    (hpi : doc.personalInfo = some pi) (hed : doc.education = some ed) :
    (runPipeline oracle doc st).state.db.education =
      st.db.education.filter
          (fun r => r.professional_id ≠ (insert_professional_data pi st.db).1) ++
        ed.map (eduToRow (insert_professional_data pi st.db).1) := by
  rcases hes : doc.experience with _ | es <;> rcases hsk : doc.skills with _ | sk <;>
    rcases hps : doc.projects with _ | ps <;>
    simp only [runPipeline, hpi, hes, hsk, hps, hed, insert_experiences, insert_skills,
      insert_projects, insert_education, insert_content_chunks, json_stage_education,
      prof_stage_education]

theorem runPipeline_education_missing (oracle : Nat → Nat → Bool) (doc : Doc) (st : SysState)
    (pi : PersonalInfo)
    (hpi : doc.personalInfo = some pi) (hed : doc.education = none) :
    (runPipeline oracle doc st).state.db.education = st.db.education := by
  rcases hes : doc.experience with _ | es <;> rcases hsk : doc.skills with _ | sk <;>
    rcases hps : doc.projects with _ | ps <;>
    simp only [runPipeline, hpi, hes, hsk, hps, hed, insert_experiences, insert_skills,
      insert_projects, insert_education, insert_content_chunks, json_stage_education,
      prof_stage_education]

/-! ## Replace-all round-trip helpers -/

theorem filter_replaceAll {α : Type} (q : α → Bool) (base new : List α)
    (hnew : ∀ x ∈ new, q x = false) :
    (base.filter q ++ new).filter q = base.filter q := by
  have h1 : (base.filter q).filter q = base.filter q :=
    List.filter_eq_self.mpr fun a ha => (List.mem_filter.mp ha).2
  have h2 : new.filter q = [] :=
    List.filter_eq_nil_iff.mpr fun a ha => by simp [hnew a ha]
  rw [List.filter_append, h1, h2, List.append_nil]

theorem count_replaceAll {α : Type} (q qe : α → Bool) (base new : List α)
    (hnew : ∀ x ∈ new, qe x = true)
    (hopp : ∀ a, q a = true → qe a = false) :
    ((base.filter q ++ new).filter qe).length = new.length := by
  have h1 : (base.filter q).filter qe = [] :=
    List.filter_eq_nil_iff.mpr fun a ha => by
      simp [hopp a (List.mem_filter.mp ha).2]
  have h2 : new.filter qe = new := List.filter_eq_self.mpr hnew
  rw [List.filter_append, h1, h2, List.nil_append]

/-! ## Remaining retry characterisations -/

theorem upsertVectorBatch_retry_ok (fails : Nat → Bool) (n e : Nat)
    (h0 : fails 0 = true) (h1 : fails 1 = true) (h2 : fails 2 = false) :
    upsertVectorBatch fails n e =
      { ok := true, embedded := e + n, attempts := 3,
        delays := [retry_delay * 1, retry_delay * 2] } := by
  have hr : List.range max_retries = [0, 1, 2] := rfl
  unfold upsertVectorBatch
  rw [hr]
  simp [upsertAttemptLoop, h0, h1, h2, max_retries]

theorem upsertVectorBatch_all_fail (fails : Nat → Bool) (n e : Nat)
    (h0 : fails 0 = true) (h1 : fails 1 = true) (h2 : fails 2 = true) :
    upsertVectorBatch fails n e =
      { ok := false, embedded := e, attempts := 3,
        delays := [retry_delay * 1, retry_delay * 2] } := by
  have hr : List.range max_retries = [0, 1, 2] := rfl
  unfold upsertVectorBatch
  rw [hr]
  simp [upsertAttemptLoop, h0, h1, h2, max_retries]

theorem upsertVectorBatch_attempts_le (fails : Nat → Bool) (n e : Nat) :
    (upsertVectorBatch fails n e).attempts ≤ 3 := by
  have hr : List.range max_retries = [0, 1, 2] := rfl
  unfold upsertVectorBatch
  rw [hr]
  by_cases h0 : fails 0 <;> by_cases h1 : fails 1 <;> by_cases h2 : fails 2 <;>
    simp [upsertAttemptLoop, h0, h1, h2, max_retries]

/-! ## Claim theorems -/

/-- C3: a vector batch is upserted at most 3 times with sleeps of
`retry_delay * attempt_number` between attempts; two failures followed by a
success count the whole batch as embedded exactly once
(`stats.vectors_embedded` grows by the batch size, once); three failures
re-raise, the caller (`generate_vector_embeddings`) propagates the error —
aborting the remaining batches — and nothing in the failed batch is counted
as embedded. -/
theorem C3_batch_retry :
    (∀ (fails : Nat → Bool) (n e : Nat), (upsertVectorBatch fails n e).attempts ≤ 3) ∧
    (∀ (fails : Nat → Bool) (n e : Nat),
      fails 0 = true → fails 1 = true → fails 2 = false →
      upsertVectorBatch fails n e =
        { ok := true, embedded := e + n, attempts := 3,
          delays := [retry_delay * 1, retry_delay * 2] }) ∧
    (∀ (fails : Nat → Bool) (n e : Nat),
      fails 0 = true → fails 1 = true → fails 2 = true →
      upsertVectorBatch fails n e =
        { ok := false, embedded := e, attempts := 3,
          delays := [retry_delay * 1, retry_delay * 2] }) ∧
    (∀ (oracle : Nat → Nat → Bool) (k e : Nat) (vs : List VectorRecord)
        (b : List VectorRecord) (rest : List (List VectorRecord)),
      oracle k 0 = true → oracle k 1 = true → oracle k 2 = true →
      upsertBatches oracle k e vs (b :: rest) = (false, e, vs)) := by
  refine ⟨upsertVectorBatch_attempts_le, upsertVectorBatch_retry_ok,
    upsertVectorBatch_all_fail, ?_⟩
  intro oracle k e vs b rest h0 h1 h2
  simp only [upsertBatches]
  rw [upsertVectorBatch_all_fail (oracle k) b.length e h0 h1 h2]
  simp

theorem C3_batch_retry_witness :
    upsertVectorBatch (fun a => decide (a < 2)) 7 100 =
      { ok := true, embedded := 107, attempts := 3, delays := [1, 2] } ∧
    upsertVectorBatch (fun _ => true) 7 100 =
      { ok := false, embedded := 100, attempts := 3, delays := [1, 2] } ∧
    upsertBatches (fun _ _ => true) 0 100 [] [[]] = (false, 100, []) :=
  ⟨C3_batch_retry.2.1 (fun a => decide (a < 2)) 7 100 (by decide) (by decide) (by decide),
   C3_batch_retry.2.2.1 (fun _ => true) 7 100 rfl rfl rfl,
   C3_batch_retry.2.2.2 (fun _ _ => true) 0 100 [] [] [] rfl rfl rfl⟩

/-- C4 counterexample: the claim asserts that `"present"`/`"current"`
anywhere in the duration string forces `ongoing = true`, but on the input
`"Present"` — which contains `"present"` case-insensitively — the code takes
the fewer-than-two-parts exit and returns `ongoing = false`. -/
theorem C4_counterexample :
    isCurrentFlag "Present" = true ∧ parse_duration "Present" = (none, none, false) := by
  constructor <;> decide

/-- C4 (amended): `"2021-03 - Present"` parses to (March 2021, null, true)
and `"2019-01 - 2020-06"` to (January 2019, June 2020, false); en- and
em-dashes are normalised to hyphens before splitting; `"present"`/`"current"`
(case-insensitive) force `end = null` and `ongoing = true` *provided the
normalised string splits into at least two parts on `" - "`* (otherwise the
result is `(null, null, false)`); and when no date part matches any of the
fixed formats both dates are null, with no exception raised (the function is
total). -/
theorem C4_parse_duration_amended :
    parse_duration "2021-03 - Present" = (some ⟨2021, 3⟩, none, true) ∧
    parse_duration "2019-01 - 2020-06" = (some ⟨2019, 1⟩, some ⟨2020, 6⟩, false) ∧
    parse_duration "2021-03 – Present" = parse_duration "2021-03 - Present" ∧
    parse_duration "2019-01 — 2020-06" = parse_duration "2019-01 - 2020-06" ∧
    (∀ s : String, 2 ≤ (durationParts s).length → isCurrentFlag s = true →
      (parse_duration s).2.1 = none ∧ (parse_duration s).2.2 = true) ∧
    (∀ s : String, (∀ p ∈ durationParts s, parse_dateL (pyStrip p) = none) →
      (parse_duration s).1 = none ∧ (parse_duration s).2.1 = none) := by
  refine ⟨by decide, by decide, by decide, by decide, ?_, ?_⟩
  · intro s hlen hcur
    have hs : ¬ s.data = [] := by
      intro h
      unfold durationParts at hlen
      rw [h] at hlen
      simp [normalizeDashes, pySplit, pySplitCore] at hlen
    unfold parse_duration
    rw [if_neg hs]
    rcases hdp : durationParts s with _ | ⟨p1, _ | ⟨p2, rest⟩⟩
    · rw [hdp] at hlen; simp at hlen
    · rw [hdp] at hlen; simp at hlen
    · simp [hcur]
  · intro s hnull
    by_cases hs : s.data = []
    · simp [parse_duration, hs]
    · unfold parse_duration
      rw [if_neg hs]
      rcases hdp : durationParts s with _ | ⟨p1, _ | ⟨p2, rest⟩⟩
      · simp
      · simp
      · have h1 : parse_dateL (pyStrip p1) = none := hnull p1 (by rw [hdp]; simp)
        have h2 : parse_dateL (pyStrip p2) = none := hnull p2 (by rw [hdp]; simp)
        simp only [h1]
        constructor
        · trivial
        · split <;> simp [h2]

theorem C4_amended_witness :
    (parse_duration "2021-03 - Present").2.1 = none ∧
    (parse_duration "2021-03 - Present").2.2 = true :=
  C4_parse_duration_amended.2.2.2.2.1 "2021-03 - Present" (by decide) (by decide)

/-- C7: the Document Loader yields a distinct error kind per failure class —
file-not-found, malformed JSON, and other I/O failures are re-raised
distinguishably — and a well-formed JSON document is returned without error
whatever top-level sections it has (missing sections only produce the logged
warning list). -/
theorem C7_loader_errors :
    (∀ d : Doc, load_and_validate_json (LoadOutcome.parsed d) = .ok (d, missingSections d)) ∧
    load_and_validate_json .fileNotFound = .error .fileNotFound ∧
    load_and_validate_json .jsonDecodeError = .error .malformedJson ∧
    load_and_validate_json .otherFailure = .error .otherErr ∧
    (LoadError.fileNotFound ≠ LoadError.malformedJson ∧
     LoadError.fileNotFound ≠ LoadError.otherErr ∧
     LoadError.malformedJson ≠ LoadError.otherErr) :=
  ⟨fun _ => rfl, rfl, rfl, rfl, by decide⟩

theorem C7_loader_errors_witness :
    load_and_validate_json (LoadOutcome.parsed {}) = .ok ({}, missingSections {}) :=
  C7_loader_errors.1 {}

/-- C8: whenever the normalised duration string does not split into at least
two parts on `" - "`, `parse_duration` returns `(null, null, false)` — in
particular for the empty string, a bare `"2021"`, and the bare word
`"Present"`, whose `"present"` substring notwithstanding the returned
`ongoing` flag is `false`. -/
theorem C8_short_split :
    (∀ s : String, (durationParts s).length < 2 → parse_duration s = (none, none, false)) ∧
    parse_duration "" = (none, none, false) ∧
    parse_duration "2021" = (none, none, false) ∧
    (isCurrentFlag "Present" = true ∧ parse_duration "Present" = (none, none, false)) := by
  refine ⟨?_, by decide, by decide, by decide, by decide⟩
  intro s hlen
  by_cases hs : s.data = []
  · simp [parse_duration, hs]
  · unfold parse_duration
    rw [if_neg hs]
    rcases hdp : durationParts s with _ | ⟨p1, _ | ⟨p2, rest⟩⟩
    · simp
    · simp
    · rw [hdp] at hlen
      simp only [List.length_cons] at hlen
      omega

theorem C8_short_split_witness : parse_duration "just one field" = (none, none, false) :=
  C8_short_split.1 "just one field" (by decide)

/-- The four branch values of the mock scorer, as explicit scaled integers
(each verified by kernel computation of the rounding model; they are the
exact values of the CPython results `0.6499999999999999`, `0.95`,
`0.9199999999999999` and `0.85`). -/
theorem mock_branch_values :
    max (float56 6 10) (subF56 (float56 85 100) (float56 2 10)) = 46837436124653152 ∧
    min (float56 95 100) (addF56 (float56 85 100) (float56 1 10)) = 68454714336031536 ∧
    min (float56 92 100) (addF56 (float56 85 100) (float56 7 100)) = 66292986514893696 ∧
    float56 85 100 = 61248954932238744 ∧
    float56 95 100 = 68454714336031536 ∧
    float56 65 100 = 46837436124653160 ∧
    float56 92 100 = 66292986514893704 := by
  refine ⟨by decide, by decide, by decide, by decide, by decide, by decide, by decide⟩

/-- C10 counterexample: the claim asserts that queries shorter than 10
characters yield `0.65` and technical queries yield `0.92`, but in the
program's IEEE-754 arithmetic `max(0.6, 0.85 - 0.2)` is
`0.6499999999999999` and `min(0.92, 0.85 + 0.07)` is `0.9199999999999999` —
unequal to `0.65` / `0.92` under both readings of those numerals (the exact
decimals and the doubles the literals denote). -/
theorem C10_counterexample :
    "short".length < 10 ∧
    calculate_mock_confidence "short" ≠ (0.65 : ℚ) ∧
    calculate_mock_confidence "short" ≠ ((float56 65 100 : ℚ)) / 2 ^ 56 ∧
    ¬ "explain the vector database".length < 10 ∧
    ¬ 50 < "explain the vector database".length ∧
    (technical_terms.any fun t =>
      listInfixOf t.data (pyLower "explain the vector database".data)) = true ∧
    calculate_mock_confidence "explain the vector database" ≠ (0.92 : ℚ) ∧
    calculate_mock_confidence "explain the vector database" ≠
      ((float56 92 100 : ℚ)) / 2 ^ 56 := by
  have hshort : calculate_mock_confidence "short" = ((46837436124653152 : ℚ)) / 2 ^ 56 := by
    simp only [calculate_mock_confidence]
    rw [if_pos (by decide : "short".length < 10), mock_branch_values.1]
    norm_num
  have htech : calculate_mock_confidence "explain the vector database" =
      ((66292986514893696 : ℚ)) / 2 ^ 56 := by
    simp only [calculate_mock_confidence]
    rw [if_neg (by decide : ¬ "explain the vector database".length < 10),
        if_neg (by decide : ¬ "explain the vector database".length > 50),
        if_pos (by decide), mock_branch_values.2.2.1]
    norm_num
  have h65 : (float56 65 100 : ℚ) = 46837436124653160 := by
    rw [mock_branch_values.2.2.2.2.2.1]
    norm_num
  have h92 : (float56 92 100 : ℚ) = 66292986514893704 := by
    rw [mock_branch_values.2.2.2.2.2.2]
    norm_num
  refine ⟨by decide, ?_, ?_, by decide, by decide, by decide, ?_, ?_⟩
  · rw [hshort]; norm_num
  · rw [hshort, h65]; norm_num
  · rw [htech]; norm_num
  · rw [htech, h92]; norm_num

/-- C10 (amended): the mock confidence score always lies in `[0.6, 0.95]`
(exact decimal bounds) and is deterministic in the query string; in the
program's IEEE-754 binary64 arithmetic, queries shorter than 10 characters
yield `max(0.6, 0.85 - 0.2) = 0.6499999999999999` — strictly below `0.65`
but within `2^-50` of it — otherwise queries longer than 50 characters yield
the double the literal `0.95` denotes, otherwise queries containing a
technical term yield `min(0.92, 0.85 + 0.07) = 0.9199999999999999` —
strictly below `0.92` but within `2^-50` of it — and all others yield the
double the literal `0.85` denotes. -/
theorem C10_mock_confidence_amended :
    (∀ q : String,
      (0.6 : ℚ) ≤ calculate_mock_confidence q ∧ calculate_mock_confidence q ≤ (0.95 : ℚ)) ∧
    (∀ q : String, q.length < 10 →
      calculate_mock_confidence q = ((46837436124653152 : ℚ)) / 2 ^ 56 ∧
      calculate_mock_confidence q < (0.65 : ℚ) ∧
      (0.65 : ℚ) - calculate_mock_confidence q < 1 / 2 ^ 50) ∧
    (∀ q : String, ¬ q.length < 10 → 50 < q.length →
      calculate_mock_confidence q = ((float56 95 100 : ℚ)) / 2 ^ 56) ∧
    (∀ q : String, ¬ q.length < 10 → ¬ 50 < q.length →
      (technical_terms.any fun t => listInfixOf t.data (pyLower q.data)) = true →
      calculate_mock_confidence q = ((66292986514893696 : ℚ)) / 2 ^ 56 ∧
      calculate_mock_confidence q < (0.92 : ℚ) ∧
      (0.92 : ℚ) - calculate_mock_confidence q < 1 / 2 ^ 50) ∧
    (∀ q : String, ¬ q.length < 10 → ¬ 50 < q.length →
      (technical_terms.any fun t => listInfixOf t.data (pyLower q.data)) = false →
      calculate_mock_confidence q = ((float56 85 100 : ℚ)) / 2 ^ 56) ∧
    (∀ q₁ q₂ : String, q₁ = q₂ →
      calculate_mock_confidence q₁ = calculate_mock_confidence q₂) := by
  have hlow : ∀ q : String, q.length < 10 →
      calculate_mock_confidence q = ((46837436124653152 : ℚ)) / 2 ^ 56 := by
    intro q h
    simp only [calculate_mock_confidence]
    rw [if_pos h, mock_branch_values.1]
    norm_num
  have hhigh : ∀ q : String, ¬ q.length < 10 → 50 < q.length →
      calculate_mock_confidence q = ((68454714336031536 : ℚ)) / 2 ^ 56 := by
    intro q h1 h2
    simp only [calculate_mock_confidence]
    rw [if_neg h1, if_pos h2, mock_branch_values.2.1]
    norm_num
  have htech : ∀ q : String, ¬ q.length < 10 → ¬ 50 < q.length →
      (technical_terms.any fun t => listInfixOf t.data (pyLower q.data)) = true →
      calculate_mock_confidence q = ((66292986514893696 : ℚ)) / 2 ^ 56 := by
    intro q h1 h2 h3
    simp only [calculate_mock_confidence]
    rw [if_neg h1, if_neg h2, if_pos h3, mock_branch_values.2.2.1]
    norm_num
  have hbase : ∀ q : String, ¬ q.length < 10 → ¬ 50 < q.length →
      (technical_terms.any fun t => listInfixOf t.data (pyLower q.data)) = false →
      calculate_mock_confidence q = ((61248954932238744 : ℚ)) / 2 ^ 56 := by
    intro q h1 h2 h3
    simp only [calculate_mock_confidence]
    rw [if_neg h1, if_neg h2, if_neg (by simp [h3])]
    rw [mock_branch_values.2.2.2.1]
    norm_num
  have h95 : (float56 95 100 : ℚ) = 68454714336031536 := by
    rw [mock_branch_values.2.2.2.2.1]
    norm_num
  have h85 : (float56 85 100 : ℚ) = 61248954932238744 := by
    rw [mock_branch_values.2.2.2.1]
    norm_num
  refine ⟨?_, ?_, ?_, ?_, ?_, ?_⟩
  · intro q
    by_cases h1 : q.length < 10
    · rw [hlow q h1]
      constructor <;> norm_num
    by_cases h2 : 50 < q.length
    · rw [hhigh q h1 h2]
      constructor <;> norm_num
    rcases hb : (technical_terms.any fun t => listInfixOf t.data (pyLower q.data)) with _ | _
    · rw [hbase q h1 h2 hb]
      constructor <;> norm_num
    · rw [htech q h1 h2 hb]
      constructor <;> norm_num
  · intro q h
    refine ⟨hlow q h, ?_, ?_⟩ <;> rw [hlow q h] <;> norm_num
  · intro q h1 h2
    rw [hhigh q h1 h2, h95]
  · intro q h1 h2 h3
    refine ⟨htech q h1 h2 h3, ?_, ?_⟩ <;> rw [htech q h1 h2 h3] <;> norm_num
  · intro q h1 h2 h3
    rw [hbase q h1 h2 h3, h85]
  · intro q₁ q₂ h
    rw [h]

theorem C10_amended_witness :
    (calculate_mock_confidence "short" = ((46837436124653152 : ℚ)) / 2 ^ 56 ∧
      calculate_mock_confidence "short" < (0.65 : ℚ) ∧
      (0.65 : ℚ) - calculate_mock_confidence "short" < 1 / 2 ^ 50) ∧
    (calculate_mock_confidence "explain the vector database" =
        ((66292986514893696 : ℚ)) / 2 ^ 56 ∧
      calculate_mock_confidence "explain the vector database" < (0.92 : ℚ) ∧
      (0.92 : ℚ) - calculate_mock_confidence "explain the vector database" < 1 / 2 ^ 50) :=
  ⟨C10_mock_confidence_amended.2.1 "short" (by decide),
   C10_mock_confidence_amended.2.2.2.1 "explain the vector database"
     (by decide) (by decide) (by decide)⟩

/-- C1: for every chunk the persister stores, the textual chunk id is
`"chunk-{professional_id}-{chunk_type}-{index}"` with the chunk's global
index, the stored vector-store id is `"upstash-" + chunk_id`, stripping the
`"upstash-"` namespace from that vector-store id recovers exactly the chunk
id (round-trip), and the in-memory chunk's `metadata.chunk_id` is set to the
relational row id assigned by the insert (with `metadata.vector_id` set to
the stored vector id). -/
theorem C1_chunk_persistence :
    ∀ (chunks : List ContentChunk) (pid : Nat) (db : DB) (i : Nat) (c : ContentChunk),
      chunks[i]? = some c →
      ∃ (row : ChunkRow) (c' : ContentChunk),
        ((insert_content_chunks chunks pid db).2.content_chunks.drop
            db.content_chunks.length)[i]? = some row ∧
        ((insert_content_chunks chunks pid db).1)[i]? = some c' ∧
        row.chunk_id = chunkIdStr pid c.chunk_type i ∧
        row.vector_id = vectorIdStr row.chunk_id ∧
        stripUpstash row.vector_id = row.chunk_id ∧
        c'.metadata.chunk_id = some row.id ∧
        c'.metadata.vector_id = some row.vector_id := by
  intro chunks pid db i c hc
  refine ⟨mkChunkRow pid (db.nextChunkRowId + i) i c,
          annotateChunk pid (db.nextChunkRowId + i) i c, ?_, ?_,
          rfl, rfl, stripUpstash_vectorIdStr _, rfl, rfl⟩
  · rw [insert_content_chunks_new_rows, insertChunksGo_rows, hc]
    simp
  · show ((insertChunksGo pid 0 db.nextChunkRowId chunks).1)[i]? = _
    rw [insertChunksGo_chunks, hc]
    simp

def c1WitnessChunk : ContentChunk :=
  { content := "Example content",
    metadata := { professional_id := 7, content_type := "experience" },
    chunk_type := "experience", importance := "high", keywords := [] }

theorem C1_chunk_persistence_witness :
    ∃ (row : ChunkRow) (c' : ContentChunk),
      ((insert_content_chunks [c1WitnessChunk] 7 {}).2.content_chunks.drop
          ({} : DB).content_chunks.length)[0]? = some row ∧
      ((insert_content_chunks [c1WitnessChunk] 7 {}).1)[0]? = some c' ∧
      row.chunk_id = chunkIdStr 7 c1WitnessChunk.chunk_type 0 ∧
      row.vector_id = vectorIdStr row.chunk_id ∧
      stripUpstash row.vector_id = row.chunk_id ∧
      c'.metadata.chunk_id = some row.id ∧
      c'.metadata.vector_id = some row.vector_id :=
  C1_chunk_persistence [c1WitnessChunk] 7 {} 0 c1WitnessChunk rfl

/-- C9: within one run, all textual chunk ids the persister assigns are
pairwise distinct — the embedded index is the chunk's global position in the
builder output, so two rows at different positions get different ids — and
hence the derived vector-store ids are pairwise distinct as well. -/
theorem C9_chunk_ids_distinct :
    ∀ (chunks : List ContentChunk) (pid : Nat) (db : DB) (i j : Nat) (ri rj : ChunkRow),
      i ≠ j →
      ((insert_content_chunks chunks pid db).2.content_chunks.drop
          db.content_chunks.length)[i]? = some ri →
      ((insert_content_chunks chunks pid db).2.content_chunks.drop
          db.content_chunks.length)[j]? = some rj →
      ri.chunk_id ≠ rj.chunk_id ∧ ri.vector_id ≠ rj.vector_id := by
  intro chunks pid db i j ri rj hij hri hrj
  rw [insert_content_chunks_new_rows, insertChunksGo_rows] at hri hrj
  rcases hci : chunks[i]? with _ | ci
  · rw [hci] at hri; simp at hri
  rcases hcj : chunks[j]? with _ | cj
  · rw [hcj] at hrj; simp at hrj
  rw [hci] at hri
  rw [hcj] at hrj
  simp only [Option.map_some'] at hri hrj
  injection hri with hri
  injection hrj with hrj
  have hchunk : ri.chunk_id = chunkIdStr pid ci.chunk_type i := by
    rw [← hri]; simp [mkChunkRow]
  have hchunk' : rj.chunk_id = chunkIdStr pid cj.chunk_type j := by
    rw [← hrj]; simp [mkChunkRow]
  have hvec : ri.vector_id = vectorIdStr ri.chunk_id := by
    rw [hchunk, ← hri]
    simp [mkChunkRow]
  have hvec' : rj.vector_id = vectorIdStr rj.chunk_id := by
    rw [hchunk', ← hrj]
    simp [mkChunkRow]
  have hne : ri.chunk_id ≠ rj.chunk_id := by
    rw [hchunk, hchunk']
    exact chunkIdStr_ne_of_index_ne pid ci.chunk_type cj.chunk_type i j hij
  refine ⟨hne, ?_⟩
  rw [hvec, hvec']
  intro h
  exact hne (vectorIdStr_inj _ _ h)

def c9WitnessChunkA : ContentChunk :=
  { content := "A", metadata := { professional_id := 7, content_type := "experience" },
    chunk_type := "experience", importance := "high", keywords := [] }

def c9WitnessChunkB : ContentChunk :=
  { content := "B", metadata := { professional_id := 7, content_type := "skills" },
    chunk_type := "skills", importance := "high", keywords := [] }

theorem C9_chunk_ids_distinct_witness :
    (mkChunkRow 7 1 0 c9WitnessChunkA).chunk_id ≠ (mkChunkRow 7 2 1 c9WitnessChunkB).chunk_id ∧
    (mkChunkRow 7 1 0 c9WitnessChunkA).vector_id ≠
      (mkChunkRow 7 2 1 c9WitnessChunkB).vector_id :=
  C9_chunk_ids_distinct [c9WitnessChunkA, c9WitnessChunkB] 7 {} 0 1
    (mkChunkRow 7 1 0 c9WitnessChunkA) (mkChunkRow 7 2 1 c9WitnessChunkB)
    (by decide) (by decide) (by decide)

/-- C5: the Chunk Builder's importance tiering — experience chunks at list
positions 0, 1, 2 are `"high"` and all later ones `"medium"` (so the 1st and
3rd entries are high and the 4th medium); a project chunk is `"high"`
exactly when the project's status is `completed`; technical-skill-category
and identity chunks are always `"high"`; soft-skills and education chunks
are always `"medium"`. -/
theorem C5_importance_rules :
    (∀ (doc : Doc) (pid i : Nat), i < (doc.experience.getD []).length →
      ((create_content_chunks doc pid).filter
          (fun c => c.chunk_type == "experience"))[i]?.map (fun c => c.importance) =
        some (if i < 3 then "high" else "medium")) ∧
    (∀ (doc : Doc) (pid i : Nat) (p : Project), (doc.projects.getD [])[i]? = some p →
      ((create_content_chunks doc pid).filter
          (fun c => c.chunk_type == "project"))[i]?.map (fun c => c.importance) =
        some (if p.status == some "completed" then "high" else "medium")) ∧
    (∀ (pid : Nat) (groups : List CategoryGroup) (c : ContentChunk),
      c ∈ technicalSkillChunks pid groups → c.importance = "high") ∧
    (∀ (pid : Nat) (soft : List SoftSkill) (c : ContentChunk),
      c ∈ softSkillChunks pid soft → c.importance = "medium") ∧
    (∀ (doc : Doc) (pid : Nat) (c : ContentChunk), c ∈ create_content_chunks doc pid →
      (c.chunk_type = "personal_info" → c.importance = "high") ∧
      (c.chunk_type = "education" → c.importance = "medium")) := by
  refine ⟨?_, ?_, ?_, ?_, ?_⟩
  · intro doc pid i h
    rw [filter_experience_chunks, experienceChunks_getElem, List.getElem?_eq_getElem h]
    rfl
  · intro doc pid i p hp
    rw [filter_project_chunks, projectChunks_getElem, hp]
    rfl
  · intro pid groups c hc
    exact (technicalSkillChunks_mem pid groups c hc).2
  · intro pid soft c hc
    exact (softSkillChunks_mem pid soft c hc).2
  · intro doc pid c hc
    unfold create_content_chunks at hc
    simp only [List.mem_append] at hc
    rcases hc with ((((h1 | h2) | h3) | h4) | h5) | h6
    · obtain ⟨ht, hi⟩ := personalInfoChunks_mem pid doc c h1
      exact ⟨fun _ => hi, fun habs => absurd habs (by rw [ht]; decide)⟩
    · have ht := experienceChunks_mem pid _ c h2
      constructor <;> intro habs <;> exact absurd habs (by rw [ht]; decide)
    · obtain ⟨ht, _⟩ := techSegment_mem doc pid c h3
      constructor <;> intro habs <;> exact absurd habs (by rw [ht]; decide)
    · obtain ⟨ht, _⟩ := softSegment_mem doc pid c h4
      constructor <;> intro habs <;> exact absurd habs (by rw [ht]; decide)
    · have ht := projectChunks_mem pid _ c h5
      constructor <;> intro habs <;> exact absurd habs (by rw [ht]; decide)
    · obtain ⟨ht, hi⟩ := educationChunks_mem pid _ c h6
      exact ⟨fun habs => absurd habs (by rw [ht]; decide), fun _ => hi⟩

def c5WitnessDoc : Doc :=
  { personalInfo := some { name := some "Ada" },
    experience := some [{ company := some "One" }, { company := some "Two" },
                        { company := some "Three" }, { company := some "Four" }],
    projects := some [{ name := some "P", status := some "completed" }] }

theorem C5_importance_rules_witness :
    ((create_content_chunks c5WitnessDoc 1).filter
        (fun c => c.chunk_type == "experience"))[0]?.map (fun c => c.importance) =
      some (if 0 < 3 then "high" else "medium") ∧
    ((create_content_chunks c5WitnessDoc 1).filter
        (fun c => c.chunk_type == "experience"))[2]?.map (fun c => c.importance) =
      some (if 2 < 3 then "high" else "medium") ∧
    ((create_content_chunks c5WitnessDoc 1).filter
        (fun c => c.chunk_type == "experience"))[3]?.map (fun c => c.importance) =
      some (if 3 < 3 then "high" else "medium") ∧
    ((create_content_chunks c5WitnessDoc 1).filter
        (fun c => c.chunk_type == "project"))[0]?.map (fun c => c.importance) =
      some (if ({ name := some "P", status := some "completed" : Project }).status ==
              some "completed" then "high" else "medium") :=
  ⟨C5_importance_rules.1 c5WitnessDoc 1 0 (by decide),
   C5_importance_rules.1 c5WitnessDoc 1 2 (by decide),
   C5_importance_rules.1 c5WitnessDoc 1 3 (by decide),
   C5_importance_rules.2.1 c5WitnessDoc 1 0 _ (by decide)⟩

/-- C6: a document lacking the `education` section entirely (but otherwise
valid, and with a healthy vector service) runs the pipeline to completion
without raising: the missing section is only the logged warning of the
loader, no Education row is inserted or deleted, and the Chunk Builder
produces zero education-type chunks. -/
theorem C6_missing_education :
    ∀ (oracle : Nat → Nat → Bool) (doc : Doc) (st : SysState) (pi : PersonalInfo)
      (es : List Experience) (sk : SkillsSection) (ps : List Project),
      doc.personalInfo = some pi → doc.experience = some es → doc.skills = some sk →
      doc.projects = some ps → doc.education = none →
      (∀ k, oracle k 0 = false) →
      (runPipeline oracle doc st).ok = true ∧
      (runPipeline oracle doc st).state.db.education = st.db.education ∧
      (∀ pid : Nat,
        (create_content_chunks doc pid).countP (fun c => c.chunk_type == "education") = 0) ∧
      missingSections doc = ["education"] ∧
      load_and_validate_json (LoadOutcome.parsed doc) = .ok (doc, ["education"]) := by
  intro oracle doc st pi es sk ps hpi hes hsk hps hed horacle
  have hmiss : missingSections doc = ["education"] := by
    simp [missingSections, required_sections, List.filter_cons, List.filter_nil,
      hasSection, hpi, hes, hsk, hps, hed]
  refine ⟨runPipeline_ok_of_all_success oracle doc st pi hpi horacle,
          runPipeline_education_missing oracle doc st pi hpi hed, ?_, hmiss, ?_⟩
  · intro pid
    rw [List.countP_eq_length_filter, filter_education_chunks, hed]
    simp [educationChunks]
  · show Except.ok (doc, missingSections doc) = Except.ok (doc, ["education"])
    rw [hmiss]

def c6WitnessDoc : Doc :=
  { personalInfo := some { name := some "Ada", contact := { email := some "a@b.c" } },
    experience := some [], skills := some {}, projects := some [], education := none }

theorem C6_missing_education_witness :
    (runPipeline (fun _ _ => false) c6WitnessDoc {}).ok = true ∧
    (runPipeline (fun _ _ => false) c6WitnessDoc {}).state.db.education =
      ({} : SysState).db.education ∧
    (∀ pid : Nat,
      (create_content_chunks c6WitnessDoc pid).countP
        (fun c => c.chunk_type == "education") = 0) ∧
    missingSections c6WitnessDoc = ["education"] ∧
    load_and_validate_json (LoadOutcome.parsed c6WitnessDoc) =
      .ok (c6WitnessDoc, ["education"]) :=
  C6_missing_education (fun _ _ => false) c6WitnessDoc {}
    { name := some "Ada", contact := { email := some "a@b.c" } } [] {} []
    rfl rfl rfl rfl rfl (fun _ => rfl)

/-! ## Owner facts for the replace-all row builders -/

theorem expToRow_owner (pid : Nat) (e : Experience) : (expToRow pid e).professional_id = pid := rfl

theorem projToRow_owner (pid : Nat) (p : Project) : (projToRow pid p).professional_id = pid := rfl

theorem eduToRow_owner (pid : Nat) (e : EducationEntry) :
    (eduToRow pid e).professional_id = pid := rfl

theorem allSkillRows_owner (pid : Nat) (sk : SkillsSection) :
    ∀ x ∈ allSkillRows pid sk, x.professional_id = pid := by
  intro x hx
  unfold allSkillRows at hx
  rcases List.mem_append.mp hx with h | h
  · rcases htec : sk.technical with _ | groups <;> rw [htec] at h
    · simp at h
    · simp only [List.mem_flatMap, List.mem_map] at h
      obtain ⟨g, _, s, _, rfl⟩ := h
      rfl
  · rcases hsoft : sk.soft_skills with _ | soft <;> rw [hsoft] at h
    · simp at h
    · simp only [List.mem_map] at h
      obtain ⟨s, _, rfl⟩ := h
      rfl

/-- C2: running the full pipeline twice in succession on the same valid
document (all five sections present, contact email present, and the usual
database invariants: at most one professional row per email, serial ids
fresh) leaves exactly one Professional row keyed by the contact email — the
second run updates in place and keeps the key stable — and each dependent
table (Experience, Skill, Project, Education) holds exactly the document's
current row count for that professional, the second run reproducing the
first run's tables unchanged: replace-all migration is idempotent under
identical input. -/
theorem C2_replace_all_idempotent :
    ∀ (or₁ or₂ : Nat → Nat → Bool) (doc : Doc) (st : SysState) (pi : PersonalInfo)
      (es : List Experience) (sk : SkillsSection) (ps : List Project)
      (ed : List EducationEntry) (e : String),
      doc.personalInfo = some pi → doc.experience = some es → doc.skills = some sk →
      doc.projects = some ps → doc.education = some ed → pi.contact.email = some e →
      (st.db.professionals.filter (emailMatches (some e))).length ≤ 1 →
      (∀ r ∈ st.db.professionals, r.id < st.db.nextProfId) →
      (runPipeline or₁ doc st).ok = true →
      (runPipeline or₂ doc (runPipeline or₁ doc st).state).ok = true →
      ∃ p : Nat,
        (runPipeline or₁ doc st).pid = some p ∧
        (runPipeline or₂ doc (runPipeline or₁ doc st).state).pid = some p ∧
        (runPipeline or₂ doc (runPipeline or₁ doc st).state).state.db.professionals =
          (runPipeline or₁ doc st).state.db.professionals ∧
        ((runPipeline or₂ doc (runPipeline or₁ doc st).state).state.db.professionals.filter
            (emailMatches (some e))).length = 1 ∧
        (runPipeline or₂ doc (runPipeline or₁ doc st).state).state.db.experiences =
          (runPipeline or₁ doc st).state.db.experiences ∧
        ((runPipeline or₂ doc (runPipeline or₁ doc st).state).state.db.experiences.filter
            (fun r => r.professional_id == p)).length = es.length ∧
        (runPipeline or₂ doc (runPipeline or₁ doc st).state).state.db.skills =
          (runPipeline or₁ doc st).state.db.skills ∧
        ((runPipeline or₂ doc (runPipeline or₁ doc st).state).state.db.skills.filter
            (fun r => r.professional_id == p)).length = (allSkillRows p sk).length ∧
        (runPipeline or₂ doc (runPipeline or₁ doc st).state).state.db.projects =
          (runPipeline or₁ doc st).state.db.projects ∧
        ((runPipeline or₂ doc (runPipeline or₁ doc st).state).state.db.projects.filter
            (fun r => r.professional_id == p)).length = ps.length ∧
        (runPipeline or₂ doc (runPipeline or₁ doc st).state).state.db.education =
          (runPipeline or₁ doc st).state.db.education ∧
        ((runPipeline or₂ doc (runPipeline or₁ doc st).state).state.db.education.filter
            (fun r => r.professional_id == p)).length = ed.length := by
  intro or₁ or₂ doc st pi es sk ps ed e hpi hes hsk hps hed he hu hf hok1 hok2
  have h1p := runPipeline_pid or₁ doc st pi hpi
  have h1profs := runPipeline_professionals or₁ doc st pi hpi
  obtain ⟨hpid2, hprofs2, hcount1⟩ :=
    prof_upsert_twice pi e he st.db (runPipeline or₁ doc st).state.db hu hf h1profs
  have h2p := runPipeline_pid or₂ doc (runPipeline or₁ doc st).state pi hpi
  have h2profs := runPipeline_professionals or₂ doc (runPipeline or₁ doc st).state pi hpi
  -- experiences
  have h1e := runPipeline_experiences or₁ doc st pi es hpi hes
  have h2e := runPipeline_experiences or₂ doc (runPipeline or₁ doc st).state pi es hpi hes
  rw [hpid2] at h2e
  have hstabE : (runPipeline or₂ doc (runPipeline or₁ doc st).state).state.db.experiences =
      (runPipeline or₁ doc st).state.db.experiences := by
    rw [h2e, h1e]
    exact congrArg
      (fun l => l ++ es.map (expToRow (insert_professional_data pi st.db).1))
      (filter_replaceAll _ _ _ (by
        intro x hx
        simp only [List.mem_map] at hx
        obtain ⟨a, _, rfl⟩ := hx
        simp [expToRow]))
  -- skills
  have h1s := runPipeline_skills or₁ doc st pi sk hpi hsk
  have h2s := runPipeline_skills or₂ doc (runPipeline or₁ doc st).state pi sk hpi hsk
  rw [hpid2] at h2s
  have hstabS : (runPipeline or₂ doc (runPipeline or₁ doc st).state).state.db.skills =
      (runPipeline or₁ doc st).state.db.skills := by
    rw [h2s, h1s]
    exact congrArg
      (fun l => l ++ allSkillRows (insert_professional_data pi st.db).1 sk)
      (filter_replaceAll _ _ _ (by
        intro x hx
        simp [allSkillRows_owner _ sk x hx]))
  -- projects
  have h1pr := runPipeline_projects or₁ doc st pi ps hpi hps
  have h2pr := runPipeline_projects or₂ doc (runPipeline or₁ doc st).state pi ps hpi hps
  rw [hpid2] at h2pr
  have hstabP : (runPipeline or₂ doc (runPipeline or₁ doc st).state).state.db.projects =
      (runPipeline or₁ doc st).state.db.projects := by
    rw [h2pr, h1pr]
    exact congrArg
      (fun l => l ++ ps.map (projToRow (insert_professional_data pi st.db).1))
      (filter_replaceAll _ _ _ (by
        intro x hx
        simp only [List.mem_map] at hx
        obtain ⟨a, _, rfl⟩ := hx
        simp [projToRow]))
  -- education
  have h1ed := runPipeline_education or₁ doc st pi ed hpi hed
  have h2ed := runPipeline_education or₂ doc (runPipeline or₁ doc st).state pi ed hpi hed
  rw [hpid2] at h2ed
  have hstabD : (runPipeline or₂ doc (runPipeline or₁ doc st).state).state.db.education =
      (runPipeline or₁ doc st).state.db.education := by
    rw [h2ed, h1ed]
    exact congrArg
      (fun l => l ++ ed.map (eduToRow (insert_professional_data pi st.db).1))
      (filter_replaceAll _ _ _ (by
        intro x hx
        simp only [List.mem_map] at hx
        obtain ⟨a, _, rfl⟩ := hx
        simp [eduToRow]))
  refine ⟨(insert_professional_data pi st.db).1, h1p, ?_, ?_, ?_, hstabE, ?_, hstabS, ?_,
          hstabP, ?_, hstabD, ?_⟩
  · rw [h2p, hpid2]
  · rw [h2profs, hprofs2]
  · rw [h2profs, hprofs2]
    exact hcount1
  · rw [hstabE, h1e]
    rw [count_replaceAll _ _ _ _
      (by
        intro x hx
        simp only [List.mem_map] at hx
        obtain ⟨a, _, rfl⟩ := hx
        simp [expToRow])
      (by
        intro a ha
        simp [expToRow] at ha ⊢
        exact ha)]
    exact List.length_map _ _
  · rw [hstabS, h1s]
    rw [count_replaceAll _ _ _ _
      (by
        intro x hx
        simp [allSkillRows_owner _ sk x hx])
      (by
        intro a ha
        simp at ha ⊢
        exact ha)]
  · rw [hstabP, h1pr]
    rw [count_replaceAll _ _ _ _
      (by
        intro x hx
        simp only [List.mem_map] at hx
        obtain ⟨a, _, rfl⟩ := hx
        simp [projToRow])
      (by
        intro a ha
        simp at ha ⊢
        exact ha)]
    exact List.length_map _ _
  · rw [hstabD, h1ed]
    rw [count_replaceAll _ _ _ _
      (by
        intro x hx
        simp only [List.mem_map] at hx
        obtain ⟨a, _, rfl⟩ := hx
        simp [eduToRow])
      (by
        intro a ha
        simp at ha ⊢
        exact ha)]
    exact List.length_map _ _

/-- An external vector service that never fails. -/
def noFailOracle : Nat → Nat → Bool := fun _ _ => false

def c2WitnessDoc : Doc :=
  { personalInfo := some { name := some "Ada", title := some "Dev",
                           contact := { email := some "ada@example.com" } },
    experience := some [{ company := some "Acme", duration := some "2021-03 - Present" }],
    skills := some { technical := some [{ category := some "Languages",
                                          skills := [{ name := some "Python" }] }],
                     soft_skills := some [{ skill := some "Communication" }] },
    projects := some [{ name := some "P1", status := some "completed" }],
    education := some [{ institution := some "Uni" }] }

theorem C2_replace_all_idempotent_witness :
    ∃ p : Nat,
      (runPipeline noFailOracle c2WitnessDoc {}).pid = some p ∧
      (runPipeline noFailOracle c2WitnessDoc
          (runPipeline noFailOracle c2WitnessDoc {}).state).pid = some p ∧
      (runPipeline noFailOracle c2WitnessDoc
          (runPipeline noFailOracle c2WitnessDoc {}).state).state.db.professionals =
        (runPipeline noFailOracle c2WitnessDoc {}).state.db.professionals ∧
      ((runPipeline noFailOracle c2WitnessDoc
          (runPipeline noFailOracle c2WitnessDoc {}).state).state.db.professionals.filter
          (emailMatches (some "ada@example.com"))).length = 1 ∧
      (runPipeline noFailOracle c2WitnessDoc
          (runPipeline noFailOracle c2WitnessDoc {}).state).state.db.experiences =
        (runPipeline noFailOracle c2WitnessDoc {}).state.db.experiences ∧
      ((runPipeline noFailOracle c2WitnessDoc
          (runPipeline noFailOracle c2WitnessDoc {}).state).state.db.experiences.filter
          (fun r => r.professional_id == p)).length =
        [({ company := some "Acme", duration := some "2021-03 - Present" } : Experience)].length ∧
      (runPipeline noFailOracle c2WitnessDoc
          (runPipeline noFailOracle c2WitnessDoc {}).state).state.db.skills =
        (runPipeline noFailOracle c2WitnessDoc {}).state.db.skills ∧
      ((runPipeline noFailOracle c2WitnessDoc
          (runPipeline noFailOracle c2WitnessDoc {}).state).state.db.skills.filter
          (fun r => r.professional_id == p)).length =
        (allSkillRows p { technical := some [{ category := some "Languages",
                                               skills := [{ name := some "Python" }] }],
                          soft_skills := some [{ skill := some "Communication" }] }).length ∧
      (runPipeline noFailOracle c2WitnessDoc
          (runPipeline noFailOracle c2WitnessDoc {}).state).state.db.projects =
        (runPipeline noFailOracle c2WitnessDoc {}).state.db.projects ∧
      ((runPipeline noFailOracle c2WitnessDoc
          (runPipeline noFailOracle c2WitnessDoc {}).state).state.db.projects.filter
          (fun r => r.professional_id == p)).length =
        [({ name := some "P1", status := some "completed" } : Project)].length ∧
      (runPipeline noFailOracle c2WitnessDoc
          (runPipeline noFailOracle c2WitnessDoc {}).state).state.db.education =
        (runPipeline noFailOracle c2WitnessDoc {}).state.db.education ∧
      ((runPipeline noFailOracle c2WitnessDoc
          (runPipeline noFailOracle c2WitnessDoc {}).state).state.db.education.filter
          (fun r => r.professional_id == p)).length =
        [({ institution := some "Uni" } : EducationEntry)].length :=
  C2_replace_all_idempotent noFailOracle noFailOracle c2WitnessDoc {}
    { name := some "Ada", title := some "Dev",
      contact := { email := some "ada@example.com" } }
    [{ company := some "Acme", duration := some "2021-03 - Present" }]
    { technical := some [{ category := some "Languages",
                           skills := [{ name := some "Python" }] }],
      soft_skills := some [{ skill := some "Communication" }] }
    [{ name := some "P1", status := some "completed" }]
    [{ institution := some "Uni" }]
    "ada@example.com"
    rfl rfl rfl rfl rfl rfl (by decide) (by decide) (by decide) (by decide)
